import Mathlib

/-!
# Dark-activated switch (MSP430G2231): ambient state machine and software PWM

A shallow embedding of `src/main.c`.

Conventions of the embedding

* `int` and `unsigned int` are 16 bits wide on the MSP430.  Unsigned values are
  natural numbers reduced `% 65536`; signed values are integers, and a signed
  result that leaves the 16-bit range is wrapped two's-complement
  (`wrapInt16`).
* Peripheral registers are fields of `State`.  `P1OUT` and `BCSCTL2` are 8-bit
  registers, `TACCR0`, `TACCR1` and `ADC10CTL0` are 16-bit registers.
* An interrupt handler runs at one timer instant: every read of `TAR` inside one
  handler returns the same value `now`, every read of `ADC10MEM` inside one
  handler returns the same sample `r`.
* `__bic_SR_register_on_exit(CPUOFF)` only wakes the idle loop of `main`, which
  goes back to sleep at once; the status register is not part of the state.
-/

namespace DarkSwitch

/-! ## Constants -/

/-- Source line 66: `#define DARKNESS_THRESHOLD_L (0x090)`. -/
def DARKNESS_THRESHOLD_L : Nat := 0x090

/-- Source line 67: `#define DARKNESS_THRESHOLD_H (0x0a0)`. -/
def DARKNESS_THRESHOLD_H : Nat := 0x0a0

/-- Source line 69: `#define LIGHTUP_TIME_SEC 30`. -/
def LIGHTUP_TIME_SEC : Nat := 30

/-- Source line 72: `#define DUTY_CYCLE_TICKS 1000`. -/
def DUTY_CYCLE_TICKS : Nat := 1000

/-- Source line 73: `#define DUTY_CYCLE_PRESC (DUTY_CYCLE_TICKS / 100)`. -/
def DUTY_CYCLE_PRESC : Nat := DUTY_CYCLE_TICKS / 100

/-- Source line 76: `#define LIGHTUP_TIME_INT (LIGHTUP_TIME_SEC * 15)`. -/
def LIGHTUP_TIME_INT : Nat := LIGHTUP_TIME_SEC * 15

/-- Source line 89: `#define LEDS_MASK (0x91)`. -/
def LEDS_MASK : Nat := 0x91

/-- Device header `msp430g2231.h`, included by the source: MCLK source select
mask, bits 7 and 6 of `BCSCTL2`; both set selects LFXT1CLK/VLOCLK, both clear
selects DCOCLK. -/
def SELM_3 : Nat := 0xC0

/-- Device header `msp430g2231.h`: ADC10 enable-conversion bit. -/
def ENC : Nat := 0x002

/-- Device header `msp430g2231.h`: ADC10 start-conversion bit. -/
def ADC10SC : Nat := 0x001

/-- Device header `msp430g2231.h`: ADC10 sample-and-hold time select 2
(`2*0x800u`). -/
def ADC10SHT_2 : Nat := 0x1000

/-- Device header `msp430g2231.h`: ADC10 on bit. -/
def ADC10ON : Nat := 0x010

/-- Device header `msp430g2231.h`: ADC10 interrupt-enable bit. -/
def ADC10IE : Nat := 0x008

/-- Device header `msp430g2231.h`: interrupt vector value of the timer overflow. -/
def TAIV_TAIFG : Nat := 0x000A

/-- Device header `msp430g2231.h`: interrupt vector value of capture/compare 1. -/
def TAIV_TACCR1 : Nat := 0x0002

/-! ## Machine arithmetic -/

/-- Bitwise complement of a 16-bit `int` operand, as a 16-bit pattern. -/
def bitNot16 (x : Nat) : Nat := 0xFFFF ^^^ x

/-- Two's-complement wrap of an integer into the range of a 16-bit `int`. -/
def wrapInt16 (x : Int) : Int := (x + 32768) % 65536 - 32768

/-- Conversion of an integer to a 16-bit `unsigned int`. -/
def toUInt16 (x : Int) : Nat := (x % 65536).toNat

/-! ## Data model -/

/-- Source line 79: `enum { LIGHT, DARK, SEQUENCE } currentState`. -/
inductive AmbientState where
  | LIGHT
  | DARK
  | SEQUENCE
  deriving DecidableEq, Repr

/-- Source line 84: `enum { PWM_OFF, PWM_ON } pwmState`. -/
inductive PwmState where
  | PWM_OFF
  | PWM_ON
  deriving DecidableEq, Repr

/-- The global variables of `main.c` and the peripheral registers its handlers
write.  `mclkSwitches` is instrumentation, not a program variable: it counts how
many times `SPEED_UP_MCLK()` or `SLOW_DOWN_MCLK()` has been executed. -/
structure State where
  currentState : AmbientState
  time_since_activation : Nat
  pwmState : PwmState
  duty : Int
  P1OUT : Nat
  BCSCTL2 : Nat
  TACCR0 : Nat
  TACCR1 : Nat
  ADC10CTL0 : Nat
  mclkSwitches : Nat
  deriving DecidableEq, Repr

open AmbientState PwmState

/-! ## Macros (source lines 91-105) -/

/-- Macro `LIGHT_LEDS()`: `P1OUT |= LEDS_MASK`. -/
def LIGHT_LEDS (s : State) : State :=
  { s with P1OUT := (s.P1OUT ||| LEDS_MASK) % 256 }

/-- Macro `DIM_LEDS()`: `P1OUT &= ~LEDS_MASK`. -/
def DIM_LEDS (s : State) : State :=
  { s with P1OUT := (s.P1OUT &&& bitNot16 LEDS_MASK) % 256 }

/-- Macro `SPEED_UP_MCLK()`: `BCSCTL2 &= ~SELM_3`. -/
def SPEED_UP_MCLK (s : State) : State :=
  { s with BCSCTL2 := (s.BCSCTL2 &&& bitNot16 SELM_3) % 256,
           mclkSwitches := s.mclkSwitches + 1 }

/-- Macro `SLOW_DOWN_MCLK()`: `BCSCTL2 |= SELM_3`. -/
def SLOW_DOWN_MCLK (s : State) : State :=
  { s with BCSCTL2 := (s.BCSCTL2 ||| SELM_3) % 256,
           mclkSwitches := s.mclkSwitches + 1 }

/-! ## Observations on the registers -/

/-- All LED pins of `P1OUT` are driven high. -/
def ledsHigh (s : State) : Prop := s.P1OUT &&& LEDS_MASK = LEDS_MASK

/-- All LED pins of `P1OUT` are driven low. -/
def ledsLow (s : State) : Prop := s.P1OUT &&& LEDS_MASK = 0

/-- MCLK is sourced from the fast DCOCLK: both `SELM` bits of `BCSCTL2` clear. -/
def fastClock (s : State) : Prop := s.BCSCTL2 &&& SELM_3 = 0

/-- MCLK is sourced from the slow LFXT1CLK/VLOCLK: both `SELM` bits set. -/
def slowClock (s : State) : Prop := s.BCSCTL2 &&& SELM_3 = SELM_3

/-- The clock selection matches the PWM state: fast clock with the PWM running,
slow clock with the PWM stopped. -/
def clockCoupled (s : State) : Prop :=
  (s.pwmState = PWM_ON ∧ fastClock s) ∨ (s.pwmState = PWM_OFF ∧ slowClock s)

/-- The elapsed counter matches the ambient state: the sentinel in LIGHT and
DARK, at most 451 in SEQUENCE. -/
def elapsedCoupled (s : State) : Prop :=
  ((s.currentState = LIGHT ∨ s.currentState = DARK) → s.time_since_activation = 0xFFFF) ∧
  (s.currentState = SEQUENCE → s.time_since_activation ≤ 451)

instance (s : State) : Decidable (ledsHigh s) := by unfold ledsHigh; infer_instance
instance (s : State) : Decidable (ledsLow s) := by unfold ledsLow; infer_instance
instance (s : State) : Decidable (fastClock s) := by unfold fastClock; infer_instance
instance (s : State) : Decidable (slowClock s) := by unfold slowClock; infer_instance

/-! ## `_setDutyOnP16` (source lines 133-161) -/

/-- The value of `percent` after the clamp of source lines 134-136. -/
def clampPercent (percent : Int) : Int :=
  if wrapInt16 (percent * DUTY_CYCLE_PRESC) < 20 then 0 else percent

/-- Function `_setDutyOnP16(int percent)`, executed at timer value `now`. -/
def _setDutyOnP16 (s : State) (now : Nat) (percent : Int) : State :=
  let percent := clampPercent percent
  if percent = 0 then
    let s := if s.pwmState = PWM_ON then SLOW_DOWN_MCLK { s with pwmState := PWM_OFF } else s
    DIM_LEDS s
  else if percent = 100 then
    let s := if s.pwmState = PWM_ON then SLOW_DOWN_MCLK { s with pwmState := PWM_OFF } else s
    LIGHT_LEDS s
  else
    let s := if s.pwmState = PWM_OFF then
        { LIGHT_LEDS (SPEED_UP_MCLK s) with pwmState := PWM_ON }
      else s
    { s with TACCR0 := toUInt16 (now + wrapInt16 (percent * DUTY_CYCLE_PRESC)),
             TACCR1 := toUInt16 (now + DUTY_CYCLE_TICKS),
             duty := percent }

/-! ## `ADC10_ISR` (source lines 168-217) -/

/-- The `switch (currentState)` of source lines 172-188, taken when the sample
is below the low threshold. -/
def darkSwitch (s : State) : State :=
  match s.currentState with
  | DARK => s
  | LIGHT => { s with time_since_activation := 0, currentState := SEQUENCE }
  | SEQUENCE => s

/-- The `switch (currentState)` of source lines 192-213, taken when the sample
is above the high threshold. -/
def lightSwitch (s : State) : State :=
  match s.currentState with
  | DARK => { s with time_since_activation := 0xFFFF, currentState := LIGHT }
  | LIGHT => s
  | SEQUENCE => { s with time_since_activation := 0xFFFF, currentState := LIGHT }

/-- Handler `ADC10_ISR`, with `r` the value read from `ADC10MEM`. -/
def ADC10_ISR (s : State) (r : Nat) : State :=
  if r < DARKNESS_THRESHOLD_L then darkSwitch s
  else if r > DARKNESS_THRESHOLD_H then lightSwitch s
  else s

/-! ## `Timer_A0` (source lines 224-233) -/

/-- Handler `Timer_A0`, the falling-edge (CCR0) interrupt. -/
def Timer_A0 (s : State) : State :=
  if s.pwmState = PWM_ON then
    let s := DIM_LEDS s
    { s with TACCR0 := (s.TACCR0 + DUTY_CYCLE_TICKS) % 65536 }
  else s

/-! ## `TIMERA1_ISR` (source lines 240-295) -/

/-- The argument of the unsigned expression
`100 - (100*time_since_activation) / LIGHTUP_TIME_INT` of source line 265,
converted to the `int` parameter of `_setDutyOnP16`. -/
def fadeDuty (e : Nat) : Int :=
  wrapInt16 ((100 + 65536 - (100 * e % 65536) / LIGHTUP_TIME_INT) % 65536 : Nat)

/-- The argument with which the timer-overflow case calls `_setDutyOnP16`, by
ambient state and elapsed counter (source lines 250-274). -/
def requestedDuty (c : AmbientState) (e : Nat) : Int :=
  match c with
  | LIGHT => 0
  | DARK => 0
  | SEQUENCE => if e ≤ LIGHTUP_TIME_INT then fadeDuty e else 0

/-- Handler `TIMERA1_ISR`, with `taiv` the value read from `TAIV` and `now` the
value of `TAR`. -/
def TIMERA1_ISR (s : State) (taiv : Nat) (now : Nat) : State :=
  if taiv = TAIV_TAIFG then
    let s := { s with ADC10CTL0 := (s.ADC10CTL0 ||| (ENC + ADC10SC)) % 65536 }
    let s :=
      match s.currentState with
      | LIGHT => _setDutyOnP16 s now 0
      | DARK => _setDutyOnP16 s now 0
      | SEQUENCE =>
        if s.time_since_activation ≤ LIGHTUP_TIME_INT then
          _setDutyOnP16 s now (fadeDuty s.time_since_activation)
        else
          let s := _setDutyOnP16 s now 0
          { s with time_since_activation := 0xFFFF, currentState := DARK }
    if s.time_since_activation ≠ 0xFFFF then
      { s with time_since_activation := (s.time_since_activation + 1) % 65536 }
    else s
  else if taiv = TAIV_TACCR1 then
    if s.pwmState = PWM_ON then
      let s := LIGHT_LEDS s
      { s with TACCR1 := (s.TACCR1 + DUTY_CYCLE_TICKS) % 65536 }
    else s
  else s

/-- The timer-overflow (tick) event: `TIMERA1_ISR` with `TAIV == TAIV_TAIFG`. -/
def tick (s : State) (now : Nat) : State := TIMERA1_ISR s TAIV_TAIFG now

/-- A run of tick events, one per timer value of the list, oldest first. -/
def ticks (s : State) (nows : List Nat) : State := nows.foldl tick s

/-- The C initialisers of source lines 79-85 (`currentState = LIGHT`,
`time_since_activation = 0xFFFF`, `pwmState = PWM_OFF`, `duty` zero-initialised),
with every register at 0. -/
def powerOn : State :=
  { currentState := LIGHT, time_since_activation := 0xFFFF, pwmState := PWM_OFF,
    duty := 0, P1OUT := 0, BCSCTL2 := 0, TACCR0 := 0, TACCR1 := 0, ADC10CTL0 := 0,
    mclkSwitches := 0 }

/-- A state in the middle of a fade: SEQUENCE with the elapsed counter `e`. -/
def fading (e : Nat) : State :=
  { powerOn with currentState := SEQUENCE, time_since_activation := e }

/-- A state with the software PWM running: fast clock selected, LEDs high, both
compare registers armed. -/
def pwmRunning : State :=
  { powerOn with pwmState := PWM_ON, duty := 50, P1OUT := 0x91, BCSCTL2 := 0,
                 TACCR0 := 500, TACCR1 := 1000, mclkSwitches := 1 }

/-! ## `main` and runs of interrupts -/

/-- Function `main` up to its idle loop (source lines 109-126), on the registers
of `State`: `BCSCTL2 |= SELM_3` and
`ADC10CTL0 = ADC10SHT_2 + ADC10ON + ADC10IE`.  Its other writes go to
registers no handler touches (`WDTCTL`, `ADC10CTL1`, `ADC10AE0`, `P1DIR`,
`CCTL0`, `CCTL1`, `TACTL`).  The argument carries the C initialisers of the
globals and the register contents at reset. -/
def main (s : State) : State :=
  { s with BCSCTL2 := (s.BCSCTL2 ||| SELM_3) % 256,
           ADC10CTL0 := (ADC10SHT_2 + ADC10ON + ADC10IE) % 65536 }

/-- One interrupt, with the values its handler reads from the hardware. -/
inductive Event where
  | adc (r : Nat)
  | timerA0
  | timerA1 (taiv : Nat) (now : Nat)
  deriving DecidableEq, Repr

/-- The handler of one interrupt: `ADC10_ISR` for a finished conversion with
`ADC10MEM = r`, `Timer_A0` for a CCR0 compare, `TIMERA1_ISR` for the shared
vector (overflow tick, CCR1 compare or any other `TAIV` value). -/
def step (s : State) (e : Event) : State :=
  match e with
  | Event.adc r => ADC10_ISR s r
  | Event.timerA0 => Timer_A0 s
  | Event.timerA1 taiv now => TIMERA1_ISR s taiv now

/-- A run of interrupts, oldest first; handlers run to completion one after
the other. -/
def run (s : State) (es : List Event) : State := es.foldl step s

/-- Number of timer counts from the instant `a` forward to the instant `b`, on
the free-running 16-bit counter. -/
def forwardGap (a b : Nat) : Int := ((b : Int) - (a : Int)) % 65536

/-! ## Bit-level facts about the register macros -/

theorem mod_256_eq_and (x : Nat) : x % 256 = x &&& 255 :=
  (Nat.and_pow_two_sub_one_eq_mod x 8).symm

theorem or_and_absorb (b m : Nat) : (b ||| m) &&& m = m := by
  apply Nat.eq_of_testBit_eq
  intro i
  simp only [Nat.testBit_and, Nat.testBit_or]
  cases b.testBit i <;> cases m.testBit i <;> rfl

theorem set_bits_read (b m : Nat) (hm : m &&& 255 = m) :
    ((b ||| m) % 256) &&& m = m := by
  rw [mod_256_eq_and, Nat.and_assoc, Nat.and_comm 255 m, hm, or_and_absorb]

theorem clear_bits_read (b m : Nat) : ((b &&& bitNot16 m) % 256) &&& m = 0 := by
  apply Nat.eq_of_testBit_eq
  intro i
  have h : (65535 : Nat) = 2 ^ 16 - 1 := by norm_num
  have h2 : (256 : Nat) = 2 ^ 8 := by norm_num
  unfold bitNot16
  rw [h, h2]
  simp only [Nat.testBit_and, Nat.testBit_xor, Nat.testBit_mod_two_pow,
    Nat.testBit_two_pow_sub_one, Nat.zero_testBit]
  by_cases h8 : i < 8
  · have h16 : i < 16 := by omega
    simp [h8, h16]
  · simp [h8]

theorem set_bits_twice (b m : Nat) :
    (((b ||| m) % 256) ||| m) % 256 = (b ||| m) % 256 := by
  apply Nat.eq_of_testBit_eq
  intro i
  have h2 : (256 : Nat) = 2 ^ 8 := by norm_num
  rw [h2]
  simp only [Nat.testBit_or, Nat.testBit_mod_two_pow]
  cases decide (i < 8) <;> cases b.testBit i <;> cases m.testBit i <;> rfl

theorem clear_bits_twice (b k : Nat) :
    (((b &&& k) % 256) &&& k) % 256 = (b &&& k) % 256 := by
  apply Nat.eq_of_testBit_eq
  intro i
  have h2 : (256 : Nat) = 2 ^ 8 := by norm_num
  rw [h2]
  simp only [Nat.testBit_and, Nat.testBit_mod_two_pow]
  cases decide (i < 8) <;> cases b.testBit i <;> cases k.testBit i <;> rfl

theorem clear_bits_other (b m i : Nat) (hi : i < 8) (hm : m.testBit i = false) :
    ((b &&& bitNot16 m) % 256).testBit i = b.testBit i := by
  have h16 : i < 16 := by omega
  have e : (b &&& bitNot16 m) % 256 = (b &&& ((2 ^ 16 - 1) ^^^ m)) % 2 ^ 8 := rfl
  rw [e]
  simp only [Nat.testBit_and, Nat.testBit_xor, Nat.testBit_mod_two_pow,
    Nat.testBit_two_pow_sub_one, hi, h16, hm]
  simp

theorem set_bits_other (b m i : Nat) (hi : i < 8) (hm : m.testBit i = false) :
    ((b ||| m) % 256).testBit i = b.testBit i := by
  have e : (b ||| m) % 256 = (b ||| m) % 2 ^ 8 := rfl
  rw [e]
  simp only [Nat.testBit_or, Nat.testBit_mod_two_pow, hi, hm]
  simp

theorem ledsHigh_LIGHT_LEDS (s : State) : ledsHigh (LIGHT_LEDS s) :=
  set_bits_read s.P1OUT LEDS_MASK (by decide)

theorem ledsLow_DIM_LEDS (s : State) : ledsLow (DIM_LEDS s) :=
  clear_bits_read s.P1OUT LEDS_MASK

theorem fastClock_SPEED_UP_MCLK (s : State) : fastClock (SPEED_UP_MCLK s) :=
  clear_bits_read s.BCSCTL2 SELM_3

theorem slowClock_SLOW_DOWN_MCLK (s : State) : slowClock (SLOW_DOWN_MCLK s) :=
  set_bits_read s.BCSCTL2 SELM_3 (by decide)

/-! ## Frame of `_setDutyOnP16` and the shape of the tick -/

theorem setDuty_currentState (s : State) (now : Nat) (p : Int) :
    (_setDutyOnP16 s now p).currentState = s.currentState := by
  unfold _setDutyOnP16
  simp only []
  split_ifs <;> simp [DIM_LEDS, LIGHT_LEDS, SLOW_DOWN_MCLK, SPEED_UP_MCLK]

theorem setDuty_time_since_activation (s : State) (now : Nat) (p : Int) :
    (_setDutyOnP16 s now p).time_since_activation = s.time_since_activation := by
  unfold _setDutyOnP16
  simp only []
  split_ifs <;> simp [DIM_LEDS, LIGHT_LEDS, SLOW_DOWN_MCLK, SPEED_UP_MCLK]

/-- The tick calls `_setDutyOnP16` once, with `requestedDuty` of the state and
elapsed counter it found, then performs the overflow transition and the
increment. -/
theorem tick_eq (s : State) (now : Nat) :
    tick s now =
      (let s1 := { s with ADC10CTL0 := (s.ADC10CTL0 ||| (ENC + ADC10SC)) % 65536 }
       let s2 := _setDutyOnP16 s1 now (requestedDuty s.currentState s.time_since_activation)
       let s3 := if s.currentState = SEQUENCE ∧ ¬ s.time_since_activation ≤ LIGHTUP_TIME_INT
         then { s2 with time_since_activation := 0xFFFF, currentState := DARK } else s2
       if s3.time_since_activation ≠ 0xFFFF then
         { s3 with time_since_activation := (s3.time_since_activation + 1) % 65536 }
       else s3) := by
  cases hc : s.currentState <;>
    by_cases he : s.time_since_activation ≤ LIGHTUP_TIME_INT <;>
    simp [tick, TIMERA1_ISR, requestedDuty, hc, he]

theorem fadeDuty_eq (e : Nat) (h : e ≤ 450) :
    fadeDuty e = 100 - ((100 * e / 450 : Nat) : Int) := by
  have hL : LIGHTUP_TIME_INT = 450 := rfl
  have h1 : 100 * e % 65536 = 100 * e := Nat.mod_eq_of_lt (by omega)
  have hq : 100 * e / 450 ≤ 100 := by omega
  have h2 : (100 + 65536 - 100 * e / 450) % 65536 = 100 - 100 * e / 450 := by omega
  unfold fadeDuty wrapInt16
  rw [hL, h1, h2]
  omega

theorem requestedDuty_sequence (e : Nat) (h : e ≤ 450) :
    requestedDuty SEQUENCE e = 100 - ((100 * e / 450 : Nat) : Int) := by
  have h1 : e ≤ LIGHTUP_TIME_INT := h
  simp only [requestedDuty, h1, if_true]
  exact fadeDuty_eq e h

theorem requestedDuty_overflow (e : Nat) (h : 450 < e) : requestedDuty SEQUENCE e = 0 := by
  have h1 : ¬ e ≤ LIGHTUP_TIME_INT := by
    simp only [LIGHTUP_TIME_INT, LIGHTUP_TIME_SEC]; omega
  simp only [requestedDuty, h1, if_false]

theorem tick_sentinel (s : State) (now : Nat) (h : s.time_since_activation = 0xFFFF) :
    (tick s now).time_since_activation = 0xFFFF := by
  rw [tick_eq]
  simp only []
  split_ifs <;> simp_all [setDuty_time_since_activation]

theorem ticks_sentinel (nows : List Nat) (s : State) (h : s.time_since_activation = 0xFFFF) :
    (ticks s nows).time_since_activation = 0xFFFF := by
  induction nows generalizing s with
  | nil => simpa [ticks] using h
  | cons n rest ih =>
    have := ih (tick s n) (tick_sentinel s n h)
    simpa [ticks] using this

theorem tick_overflow (s : State) (now : Nat) (hc : s.currentState = SEQUENCE)
    (he : 450 < s.time_since_activation) :
    (tick s now).currentState = DARK ∧ (tick s now).time_since_activation = 0xFFFF := by
  have h1 : ¬ s.time_since_activation ≤ LIGHTUP_TIME_INT := by
    simp only [LIGHTUP_TIME_INT, LIGHTUP_TIME_SEC]; omega
  rw [tick_eq]
  simp [hc, h1]

/-! ## Facts about `_setDutyOnP16` shared by the PWM claims -/

theorem DIM_LEDS_idem (s : State) : DIM_LEDS (DIM_LEDS s) = DIM_LEDS s := by
  simp [DIM_LEDS, clear_bits_twice]

theorem LIGHT_LEDS_idem (s : State) : LIGHT_LEDS (LIGHT_LEDS s) = LIGHT_LEDS s := by
  simp [LIGHT_LEDS, set_bits_twice]

theorem DUTY_CYCLE_PRESC_eq : DUTY_CYCLE_PRESC = 10 := rfl

theorem clampPercent_zero : clampPercent 0 = 0 := by
  simp [clampPercent]

theorem clampPercent_hundred : clampPercent 100 = 100 := by
  simp [clampPercent, wrapInt16, DUTY_CYCLE_PRESC_eq]

theorem clampPercent_mid (p : Int) (h2 : 2 ≤ p) (h99 : p ≤ 99) : clampPercent p = p := by
  have hm : (p * (10 : Nat) + 32768) % 65536 = p * (10 : Nat) + 32768 :=
    Int.emod_eq_of_lt (by omega) (by omega)
  have : ¬ wrapInt16 (p * (DUTY_CYCLE_PRESC : Nat)) < 20 := by
    rw [DUTY_CYCLE_PRESC_eq]; unfold wrapInt16; rw [hm]; omega
  simp [clampPercent, this]

/-- The call with percent 0 from a state with the PWM running. -/
theorem setDuty_zero_on (s : State) (now : Nat) (h : s.pwmState = PWM_ON) :
    _setDutyOnP16 s now 0 = DIM_LEDS (SLOW_DOWN_MCLK { s with pwmState := PWM_OFF }) := by
  simp [_setDutyOnP16, clampPercent_zero, h]

/-- The call with percent 0 from a state with the PWM stopped. -/
theorem setDuty_zero_off (s : State) (now : Nat) (h : s.pwmState = PWM_OFF) :
    _setDutyOnP16 s now 0 = DIM_LEDS s := by
  simp [_setDutyOnP16, clampPercent_zero, h]

/-- The call with percent 100 from a state with the PWM running. -/
theorem setDuty_hundred_on (s : State) (now : Nat) (h : s.pwmState = PWM_ON) :
    _setDutyOnP16 s now 100 = LIGHT_LEDS (SLOW_DOWN_MCLK { s with pwmState := PWM_OFF }) := by
  simp [_setDutyOnP16, clampPercent_hundred, h]

/-- The call with percent 100 from a state with the PWM stopped. -/
theorem setDuty_hundred_off (s : State) (now : Nat) (h : s.pwmState = PWM_OFF) :
    _setDutyOnP16 s now 100 = LIGHT_LEDS s := by
  simp [_setDutyOnP16, clampPercent_hundred, h]

/-- The call on the toggling branch from a state with the PWM stopped. -/
theorem setDuty_mid_off (s : State) (now : Nat) (p : Int) (h0 : clampPercent p ≠ 0)
    (h100 : clampPercent p ≠ 100) (h : s.pwmState = PWM_OFF) :
    _setDutyOnP16 s now p =
      { LIGHT_LEDS (SPEED_UP_MCLK s) with
        pwmState := PWM_ON,
        TACCR0 := toUInt16 (now + wrapInt16 (clampPercent p * DUTY_CYCLE_PRESC)),
        TACCR1 := toUInt16 (now + DUTY_CYCLE_TICKS),
        duty := clampPercent p } := by
  simp [_setDutyOnP16, h0, h100, h]

/-- The call on the toggling branch from a state with the PWM running. -/
theorem setDuty_mid_on (s : State) (now : Nat) (p : Int) (h0 : clampPercent p ≠ 0)
    (h100 : clampPercent p ≠ 100) (h : s.pwmState = PWM_ON) :
    _setDutyOnP16 s now p =
      { s with
        TACCR0 := toUInt16 (now + wrapInt16 (clampPercent p * DUTY_CYCLE_PRESC)),
        TACCR1 := toUInt16 (now + DUTY_CYCLE_TICKS),
        duty := clampPercent p } := by
  simp [_setDutyOnP16, h0, h100, h]

theorem toUInt16_add_wrap (now : Nat) (p : Int) :
    ((toUInt16 (now + wrapInt16 (p * DUTY_CYCLE_PRESC)) : Nat) : Int)
      = ((now : Int) + p * 10) % 65536 := by
  rw [DUTY_CYCLE_PRESC_eq]
  unfold toUInt16 wrapInt16
  omega

theorem toUInt16_add_ticks (now : Nat) :
    toUInt16 (now + DUTY_CYCLE_TICKS) = (now + 1000) % 65536 := by
  unfold toUInt16 DUTY_CYCLE_TICKS
  omega

theorem clampPercent_of_ne_zero (p : Int) (h : clampPercent p ≠ 0) : clampPercent p = p := by
  unfold clampPercent at h ⊢
  split_ifs at h ⊢ with hlt
  · exact absurd rfl h
  · rfl

/-- The call leaves the PWM running only on its toggling branch. -/
theorem setDuty_on_branch (s : State) (now : Nat) (p : Int)
    (h : (_setDutyOnP16 s now p).pwmState = PWM_ON) :
    clampPercent p ≠ 0 ∧ clampPercent p ≠ 100 := by
  refine ⟨fun h0 => ?_, fun h100 => ?_⟩
  · cases hp : s.pwmState <;>
      simp [_setDutyOnP16, h0, hp, DIM_LEDS, SLOW_DOWN_MCLK] at h
  · have h0 : clampPercent p ≠ 0 := by rw [h100]; decide
    cases hp : s.pwmState <;>
      simp [_setDutyOnP16, h100, hp, LIGHT_LEDS, SLOW_DOWN_MCLK] at h

theorem setDuty_on_TACCR0 (s : State) (now : Nat) (p : Int)
    (h : (_setDutyOnP16 s now p).pwmState = PWM_ON) :
    (((_setDutyOnP16 s now p).TACCR0 : Nat) : Int) = ((now : Int) + p * 10) % 65536 := by
  obtain ⟨h0, h100⟩ := setDuty_on_branch s now p h
  have hp := clampPercent_of_ne_zero p h0
  cases hs : s.pwmState
  · rw [setDuty_mid_off s now p h0 h100 hs, hp]
    exact toUInt16_add_wrap now p
  · rw [setDuty_mid_on s now p h0 h100 hs, hp]
    exact toUInt16_add_wrap now p

theorem Timer_A0_on (s : State) (h : s.pwmState = PWM_ON) :
    Timer_A0 s = { DIM_LEDS s with TACCR0 := (s.TACCR0 + 1000) % 65536 } := by
  simp [Timer_A0, h, DIM_LEDS, DUTY_CYCLE_TICKS]

theorem Timer_A0_iterate (k : Nat) (s : State) (c : Int) (h : s.pwmState = PWM_ON)
    (hc : ((s.TACCR0 : Nat) : Int) = c % 65536) :
    (Timer_A0^[k] s).pwmState = PWM_ON ∧
    (((Timer_A0^[k] s).TACCR0 : Nat) : Int) = (c + k * 1000) % 65536 := by
  induction k with
  | zero => exact ⟨h, by simpa using hc⟩
  | succ k ih =>
    obtain ⟨ih1, ih2⟩ := ih
    rw [Function.iterate_succ_apply', Timer_A0_on _ ih1]
    refine ⟨ih1, ?_⟩
    show (((((Timer_A0^[k] s).TACCR0 + 1000) % 65536 : Nat)) : Int) = _
    push_cast
    omega

/-! ## What the tick does to the PWM registers -/

theorem setDuty_zero_pwmState (s : State) (now : Nat) :
    (_setDutyOnP16 s now 0).pwmState = PWM_OFF := by
  cases h : s.pwmState
  · rw [setDuty_zero_off s now h]; exact h
  · rw [setDuty_zero_on s now h]; rfl

theorem setDuty_zero_ledsLow (s : State) (now : Nat) : ledsLow (_setDutyOnP16 s now 0) := by
  cases h : s.pwmState
  · rw [setDuty_zero_off s now h]; exact clear_bits_read s.P1OUT LEDS_MASK
  · rw [setDuty_zero_on s now h]; exact clear_bits_read s.P1OUT LEDS_MASK

theorem setDuty_hundred_pwmState (s : State) (now : Nat) :
    (_setDutyOnP16 s now 100).pwmState = PWM_OFF := by
  cases h : s.pwmState
  · rw [setDuty_hundred_off s now h]; exact h
  · rw [setDuty_hundred_on s now h]; rfl

theorem setDuty_hundred_ledsHigh (s : State) (now : Nat) :
    ledsHigh (_setDutyOnP16 s now 100) := by
  cases h : s.pwmState
  · rw [setDuty_hundred_off s now h]; exact set_bits_read s.P1OUT LEDS_MASK (by decide)
  · rw [setDuty_hundred_on s now h]; exact set_bits_read s.P1OUT LEDS_MASK (by decide)

/-- The call depends on its argument through the clamped value only. -/
theorem setDuty_clamped (s : State) (now : Nat) (p q : Int)
    (h : clampPercent p = clampPercent q) :
    _setDutyOnP16 s now p = _setDutyOnP16 s now q := by
  simp only [_setDutyOnP16, h]

/-- The tick leaves the PWM state, LED port, clock register, switch count and
compare registers as its `_setDutyOnP16` call left them. -/
theorem tick_hw (s : State) (now : Nat) :
    (tick s now).pwmState
      = (_setDutyOnP16 { s with ADC10CTL0 := (s.ADC10CTL0 ||| (ENC + ADC10SC)) % 65536 } now
          (requestedDuty s.currentState s.time_since_activation)).pwmState ∧
    (tick s now).P1OUT
      = (_setDutyOnP16 { s with ADC10CTL0 := (s.ADC10CTL0 ||| (ENC + ADC10SC)) % 65536 } now
          (requestedDuty s.currentState s.time_since_activation)).P1OUT ∧
    (tick s now).BCSCTL2
      = (_setDutyOnP16 { s with ADC10CTL0 := (s.ADC10CTL0 ||| (ENC + ADC10SC)) % 65536 } now
          (requestedDuty s.currentState s.time_since_activation)).BCSCTL2 := by
  rw [tick_eq]
  simp only []
  split_ifs <;> exact ⟨rfl, rfl, rfl⟩

/-- A tick whose requested duty is 0 ends with the PWM stopped and the LEDs low. -/
theorem tick_zero (s : State) (now : Nat)
    (h : clampPercent (requestedDuty s.currentState s.time_since_activation) = 0) :
    (tick s now).pwmState = PWM_OFF ∧ ledsLow (tick s now) := by
  obtain ⟨h1, h2, _⟩ := tick_hw s now
  have e := setDuty_clamped { s with ADC10CTL0 := (s.ADC10CTL0 ||| (ENC + ADC10SC)) % 65536 }
    now _ 0 (h.trans clampPercent_zero.symm)
  refine ⟨?_, ?_⟩
  · rw [h1, e]; exact setDuty_zero_pwmState _ now
  · have := setDuty_zero_ledsLow
      { s with ADC10CTL0 := (s.ADC10CTL0 ||| (ENC + ADC10SC)) % 65536 } now
    unfold ledsLow at this ⊢
    rw [h2, e]; exact this

/-- A tick in SEQUENCE below the limit keeps SEQUENCE and counts one up. -/
theorem tick_fade (s : State) (now : Nat) (hc : s.currentState = SEQUENCE)
    (he : s.time_since_activation ≤ 450) :
    (tick s now).currentState = SEQUENCE ∧
    (tick s now).time_since_activation = s.time_since_activation + 1 := by
  have h1 : s.time_since_activation ≤ LIGHTUP_TIME_INT := he
  have h2 : ¬ s.time_since_activation = 65535 := by omega
  have h3 : (s.time_since_activation + 1) % 65536 = s.time_since_activation + 1 := by omega
  rw [tick_eq]
  simp [hc, h1, h2, h3, setDuty_currentState, setDuty_time_since_activation]

/-- A tick in LIGHT or DARK keeps the ambient state. -/
theorem tick_steady (s : State) (now : Nat) (hc : s.currentState ≠ SEQUENCE) :
    (tick s now).currentState = s.currentState := by
  rw [tick_eq]
  simp only []
  split_ifs <;> simp_all [setDuty_currentState]

/-! ## Frames of the handlers and the two invariants -/

theorem ADC10_ISR_frame (s : State) (r : Nat) :
    (ADC10_ISR s r).pwmState = s.pwmState ∧ (ADC10_ISR s r).P1OUT = s.P1OUT ∧
    (ADC10_ISR s r).BCSCTL2 = s.BCSCTL2 ∧ (ADC10_ISR s r).TACCR0 = s.TACCR0 ∧
    (ADC10_ISR s r).TACCR1 = s.TACCR1 ∧ (ADC10_ISR s r).mclkSwitches = s.mclkSwitches ∧
    (ADC10_ISR s r).duty = s.duty ∧ (ADC10_ISR s r).ADC10CTL0 = s.ADC10CTL0 := by
  unfold ADC10_ISR darkSwitch lightSwitch
  split_ifs <;> cases s.currentState <;> simp

theorem Timer_A0_frame (s : State) :
    (Timer_A0 s).currentState = s.currentState ∧
    (Timer_A0 s).time_since_activation = s.time_since_activation ∧
    (Timer_A0 s).pwmState = s.pwmState ∧ (Timer_A0 s).BCSCTL2 = s.BCSCTL2 := by
  unfold Timer_A0 DIM_LEDS
  split_ifs <;> simp

/-- The shared timer vector either runs the tick or leaves ambient state,
elapsed counter, PWM state and clock register alone. -/
theorem TIMERA1_ISR_cases (s : State) (taiv now : Nat) :
    TIMERA1_ISR s taiv now = tick s now ∨
    ((TIMERA1_ISR s taiv now).currentState = s.currentState ∧
     (TIMERA1_ISR s taiv now).time_since_activation = s.time_since_activation ∧
     (TIMERA1_ISR s taiv now).pwmState = s.pwmState ∧
     (TIMERA1_ISR s taiv now).BCSCTL2 = s.BCSCTL2) := by
  by_cases h : taiv = TAIV_TAIFG
  · left; rw [h]; rfl
  · right
    unfold TIMERA1_ISR LIGHT_LEDS
    rw [if_neg h]
    split_ifs <;> simp

theorem tick_elapsedCoupled (s : State) (now : Nat) (h : elapsedCoupled s) :
    elapsedCoupled (tick s now) := by
  obtain ⟨h1, h2⟩ := h
  cases hc : s.currentState
  · have hs := tick_steady s now (by rw [hc]; decide)
    have ht := tick_sentinel s now (h1 (Or.inl hc))
    rw [hc] at hs
    exact ⟨fun _ => ht, fun h => by rw [hs] at h; exact absurd h (by decide)⟩
  · have hs := tick_steady s now (by rw [hc]; decide)
    have ht := tick_sentinel s now (h1 (Or.inr hc))
    rw [hc] at hs
    exact ⟨fun _ => ht, fun h => by rw [hs] at h; exact absurd h (by decide)⟩
  · have he := h2 hc
    by_cases h450 : s.time_since_activation ≤ 450
    · obtain ⟨f1, f2⟩ := tick_fade s now hc h450
      refine ⟨fun h => ?_, fun _ => by rw [f2]; omega⟩
      rw [f1] at h
      rcases h with h | h <;> exact absurd h (by decide)
    · obtain ⟨f1, f2⟩ := tick_overflow s now hc (by omega)
      exact ⟨fun _ => f2, fun h => by rw [f1] at h; exact absurd h (by decide)⟩

theorem ADC10_ISR_elapsedCoupled (s : State) (r : Nat) (h : elapsedCoupled s) :
    elapsedCoupled (ADC10_ISR s r) := by
  obtain ⟨h1, h2⟩ := h
  unfold elapsedCoupled ADC10_ISR darkSwitch lightSwitch
  split_ifs <;> cases hc : s.currentState <;> simp_all

theorem step_elapsedCoupled (s : State) (e : Event) (h : elapsedCoupled s) :
    elapsedCoupled (step s e) := by
  cases e with
  | adc r => exact ADC10_ISR_elapsedCoupled s r h
  | timerA0 =>
    obtain ⟨f1, f2, _, _⟩ := Timer_A0_frame s
    show elapsedCoupled (Timer_A0 s)
    unfold elapsedCoupled at h ⊢
    rw [f1, f2]; exact h
  | timerA1 taiv now =>
    show elapsedCoupled (TIMERA1_ISR s taiv now)
    rcases TIMERA1_ISR_cases s taiv now with ht | ⟨f1, f2, _, _⟩
    · rw [ht]; exact tick_elapsedCoupled s now h
    · unfold elapsedCoupled at h ⊢
      rw [f1, f2]; exact h

theorem run_elapsedCoupled (es : List Event) (s : State) (h : elapsedCoupled s) :
    elapsedCoupled (run s es) := by
  induction es generalizing s with
  | nil => exact h
  | cons e rest ih => exact ih (step s e) (step_elapsedCoupled s e h)

theorem slowClock_not_fast (s : State) (h : slowClock s) : ¬ fastClock s := by
  unfold slowClock at h
  unfold fastClock
  rw [h]
  decide

theorem setDuty_clockCoupled (s : State) (now : Nat) (p : Int) (h : clockCoupled s) :
    clockCoupled (_setDutyOnP16 s now p) := by
  by_cases h0 : clampPercent p = 0
  · rw [setDuty_clamped s now p 0 (h0.trans clampPercent_zero.symm)]
    cases hp : s.pwmState
    · rw [setDuty_zero_off s now hp]
      rcases h with ⟨h1, _⟩ | ⟨_, h2⟩
      · rw [hp] at h1; exact absurd h1 (by decide)
      · exact Or.inr ⟨hp, h2⟩
    · rw [setDuty_zero_on s now hp]
      exact Or.inr ⟨rfl, set_bits_read s.BCSCTL2 SELM_3 (by decide)⟩
  · by_cases h100 : clampPercent p = 100
    · rw [setDuty_clamped s now p 100 (h100.trans clampPercent_hundred.symm)]
      cases hp : s.pwmState
      · rw [setDuty_hundred_off s now hp]
        rcases h with ⟨h1, _⟩ | ⟨_, h2⟩
        · rw [hp] at h1; exact absurd h1 (by decide)
        · exact Or.inr ⟨hp, h2⟩
      · rw [setDuty_hundred_on s now hp]
        exact Or.inr ⟨rfl, set_bits_read s.BCSCTL2 SELM_3 (by decide)⟩
    · cases hp : s.pwmState
      · rw [setDuty_mid_off s now p h0 h100 hp]
        exact Or.inl ⟨rfl, clear_bits_read s.BCSCTL2 SELM_3⟩
      · rw [setDuty_mid_on s now p h0 h100 hp]
        rcases h with ⟨_, h2⟩ | ⟨h1, _⟩
        · exact Or.inl ⟨hp, h2⟩
        · rw [hp] at h1; exact absurd h1 (by decide)

/-- The coupling of clock and PWM state only reads `pwmState` and `BCSCTL2`. -/
theorem clockCoupled_congr (s t : State) (h1 : t.pwmState = s.pwmState)
    (h2 : t.BCSCTL2 = s.BCSCTL2) (h : clockCoupled s) : clockCoupled t := by
  unfold clockCoupled fastClock slowClock at h ⊢
  rw [h1, h2]; exact h

theorem tick_clockCoupled (s : State) (now : Nat) (h : clockCoupled s) :
    clockCoupled (tick s now) := by
  obtain ⟨h1, _, h3⟩ := tick_hw s now
  refine clockCoupled_congr _ _ h1 h3 (setDuty_clockCoupled _ now _ ?_)
  exact clockCoupled_congr s _ rfl rfl h

theorem step_clockCoupled (s : State) (e : Event) (h : clockCoupled s) :
    clockCoupled (step s e) := by
  cases e with
  | adc r =>
    obtain ⟨f1, _, f3, _⟩ := ADC10_ISR_frame s r
    exact clockCoupled_congr s _ f1 f3 h
  | timerA0 =>
    obtain ⟨_, _, f3, f4⟩ := Timer_A0_frame s
    exact clockCoupled_congr s _ f3 f4 h
  | timerA1 taiv now =>
    show clockCoupled (TIMERA1_ISR s taiv now)
    rcases TIMERA1_ISR_cases s taiv now with ht | ⟨_, _, f3, f4⟩
    · rw [ht]; exact tick_clockCoupled s now h
    · exact clockCoupled_congr s _ f3 f4 h

theorem run_clockCoupled (es : List Event) (s : State) (h : clockCoupled s) :
    clockCoupled (run s es) := by
  induction es generalizing s with
  | nil => exact h
  | cons e rest ih => exact ih (step s e) (step_clockCoupled s e h)

/-! ## The clamp and runs of ticks -/

/-- The clamp of source line 134 fires whenever the product fits 16 bits and is
below 20. -/
theorem clampPercent_small (p : Int) (h : p * 10 < 20) (hr : -32768 ≤ p * 10) :
    clampPercent p = 0 := by
  have hm : (p * (10 : Nat) + 32768) % 65536 = p * (10 : Nat) + 32768 :=
    Int.emod_eq_of_lt (by omega) (by omega)
  have : wrapInt16 (p * (DUTY_CYCLE_PRESC : Nat)) < 20 := by
    rw [DUTY_CYCLE_PRESC_eq]; unfold wrapInt16; rw [hm]; omega
  simp [clampPercent, this]

theorem setDuty_zero_compare (s : State) (now : Nat) :
    (_setDutyOnP16 s now 0).TACCR0 = s.TACCR0 ∧ (_setDutyOnP16 s now 0).TACCR1 = s.TACCR1 := by
  cases h : s.pwmState
  · rw [setDuty_zero_off s now h]; exact ⟨rfl, rfl⟩
  · rw [setDuty_zero_on s now h]; exact ⟨rfl, rfl⟩

theorem setDuty_on_TACCR1 (s : State) (now : Nat) (p : Int)
    (h : (_setDutyOnP16 s now p).pwmState = PWM_ON) :
    (_setDutyOnP16 s now p).TACCR1 = (now + 1000) % 65536 := by
  obtain ⟨h0, h100⟩ := setDuty_on_branch s now p h
  cases hs : s.pwmState
  · rw [setDuty_mid_off s now p h0 h100 hs]
    exact toUInt16_add_ticks now
  · rw [setDuty_mid_on s now p h0 h100 hs]
    exact toUInt16_add_ticks now

theorem ticks_cons (s : State) (a : Nat) (rest : List Nat) :
    ticks s (a :: rest) = ticks (tick s a) rest := rfl

theorem ticks_append (s : State) (l1 l2 : List Nat) :
    ticks s (l1 ++ l2) = ticks (ticks s l1) l2 := by
  simp [ticks, List.foldl_append]

/-- While the counter stays within the fade, a run of ticks keeps SEQUENCE and
counts one per tick. -/
theorem ticks_fade (nows : List Nat) (s : State) (hc : s.currentState = SEQUENCE)
    (he : s.time_since_activation + nows.length ≤ 451) :
    (ticks s nows).currentState = SEQUENCE ∧
    (ticks s nows).time_since_activation = s.time_since_activation + nows.length := by
  induction nows generalizing s with
  | nil => exact ⟨hc, rfl⟩
  | cons a rest ih =>
    have hl : (a :: rest).length = rest.length + 1 := rfl
    rw [hl] at he ⊢
    obtain ⟨f1, f2⟩ := tick_fade s a hc (by omega)
    obtain ⟨g1, g2⟩ := ih (tick s a) f1 (by rw [f2]; omega)
    rw [ticks_cons]
    exact ⟨g1, by rw [g2, f2]; omega⟩

/-- From elapsed 446 on, and in DARK, a tick stops the PWM, holds the LEDs low
and leads to a state of the same kind. -/
theorem tick_late (s : State) (now : Nat)
    (h : (s.currentState = SEQUENCE ∧ 446 ≤ s.time_since_activation) ∨ s.currentState = DARK) :
    (((tick s now).currentState = SEQUENCE ∧ 446 ≤ (tick s now).time_since_activation) ∨
      (tick s now).currentState = DARK) ∧
    (tick s now).pwmState = PWM_OFF ∧ ledsLow (tick s now) := by
  rcases h with ⟨hc, he⟩ | hc
  · by_cases h450 : s.time_since_activation ≤ 450
    · obtain ⟨f1, f2⟩ := tick_fade s now hc h450
      refine ⟨Or.inl ⟨f1, by rw [f2]; omega⟩, tick_zero s now ?_⟩
      rw [hc, requestedDuty_sequence _ h450]
      exact clampPercent_small _ (by omega) (by omega)
    · obtain ⟨f1, _⟩ := tick_overflow s now hc (by omega)
      refine ⟨Or.inr f1, tick_zero s now ?_⟩
      rw [hc, requestedDuty_overflow _ (by omega)]
      exact clampPercent_zero
  · have f1 := tick_steady s now (by rw [hc]; decide)
    refine ⟨Or.inr (by rw [f1, hc]), tick_zero s now ?_⟩
    rw [hc]
    exact clampPercent_zero

theorem ticks_late (nows : List Nat) (s : State)
    (h : (s.currentState = SEQUENCE ∧ 446 ≤ s.time_since_activation) ∨ s.currentState = DARK)
    (hn : nows ≠ []) :
    (ticks s nows).pwmState = PWM_OFF ∧ ledsLow (ticks s nows) := by
  induction nows generalizing s with
  | nil => exact absurd rfl hn
  | cons a rest ih =>
    obtain ⟨t1, t2⟩ := tick_late s a h
    rw [ticks_cons]
    by_cases hr : rest = []
    · rw [hr]; exact t2
    · exact ih (tick s a) t1 hr

/-! ## Sample-ready handler: the verdict columns -/

/-- Claim C1: for every state, elapsed value and raw sample, `ADC10_ISR`
follows the verdict columns of the transition table: below `0x090` (Dark) LIGHT
becomes SEQUENCE with elapsed 0 and DARK, SEQUENCE are kept; above `0x0A0`
(Light) DARK and SEQUENCE become LIGHT with elapsed `0xFFFF` and LIGHT is kept;
in between (Unchanged) nothing changes.  Nothing but state and elapsed is ever
written. -/
theorem C1_adc_verdict_columns (s : State) (r : Nat) :
    (r < 0x090 →
      (s.currentState = LIGHT →
        ADC10_ISR s r = { s with time_since_activation := 0, currentState := SEQUENCE }) ∧
      (s.currentState = DARK → ADC10_ISR s r = s) ∧
      (s.currentState = SEQUENCE → ADC10_ISR s r = s)) ∧
    (r > 0x0A0 →
      (s.currentState = DARK →
        ADC10_ISR s r = { s with time_since_activation := 0xFFFF, currentState := LIGHT }) ∧
      (s.currentState = SEQUENCE →
        ADC10_ISR s r = { s with time_since_activation := 0xFFFF, currentState := LIGHT }) ∧
      (s.currentState = LIGHT → ADC10_ISR s r = s)) ∧
    (0x090 ≤ r ∧ r ≤ 0x0A0 → ADC10_ISR s r = s) := by
  refine ⟨fun h => ?_, fun h => ?_, fun h => ?_⟩
  · have h1 : r < DARKNESS_THRESHOLD_L := h
    refine ⟨fun hc => ?_, fun hc => ?_, fun hc => ?_⟩ <;>
      simp [ADC10_ISR, h1, darkSwitch, hc]
  · have h1 : ¬ r < DARKNESS_THRESHOLD_L := by
      simp only [DARKNESS_THRESHOLD_L]; omega
    have h2 : r > DARKNESS_THRESHOLD_H := h
    refine ⟨fun hc => ?_, fun hc => ?_, fun hc => ?_⟩ <;>
      simp [ADC10_ISR, h1, h2, lightSwitch, hc]
  · have h1 : ¬ r < DARKNESS_THRESHOLD_L := by
      simp only [DARKNESS_THRESHOLD_L]; omega
    have h2 : ¬ r > DARKNESS_THRESHOLD_H := by
      simp only [DARKNESS_THRESHOLD_H]; omega
    simp [ADC10_ISR, h1, h2]

/-- Claim C2: a raw sample is handled as Dark (the handler runs the Dark switch
on every state) exactly when it is below `0x090`, as Light (the handler runs the
Light switch on every state) exactly when it is above `0x0A0`, and as Unchanged
(the handler changes no state) exactly when `0x090 ≤ r ≤ 0x0A0`; the low
threshold is below the high one and no sample satisfies both comparisons. -/
theorem C2_sample_classification (r : Nat) :
    ((∀ s : State, ADC10_ISR s r = darkSwitch s) ↔ r < 0x090) ∧
    ((∀ s : State, ADC10_ISR s r = lightSwitch s) ↔ r > 0x0A0) ∧
    ((∀ s : State, ADC10_ISR s r = s) ↔ (0x090 ≤ r ∧ r ≤ 0x0A0)) ∧
    DARKNESS_THRESHOLD_L = 0x090 ∧ DARKNESS_THRESHOLD_H = 0x0A0 ∧
    DARKNESS_THRESHOLD_L < DARKNESS_THRESHOLD_H ∧
    ¬ (r < DARKNESS_THRESHOLD_L ∧ r > DARKNESS_THRESHOLD_H) := by
  have hL : DARKNESS_THRESHOLD_L = 0x090 := rfl
  have hH : DARKNESS_THRESHOLD_H = 0x0A0 := rfl
  refine ⟨⟨fun h => ?_, fun h s => ?_⟩, ⟨fun h => ?_, fun h s => ?_⟩,
    ⟨fun h => ?_, fun h s => ?_⟩, hL, hH, by decide, by rw [hL, hH]; omega⟩
  · by_contra hr
    have h1 : ¬ r < DARKNESS_THRESHOLD_L := by rw [hL]; exact hr
    have := congrArg State.currentState (h powerOn)
    by_cases h2 : r > DARKNESS_THRESHOLD_H <;>
      simp [ADC10_ISR, h1, h2, darkSwitch, lightSwitch, powerOn] at this
  · have h1 : r < DARKNESS_THRESHOLD_L := by rw [hL]; exact h
    simp [ADC10_ISR, h1]
  · by_contra hr
    have h2 : ¬ r > DARKNESS_THRESHOLD_H := by rw [hH]; exact hr
    have := congrArg State.currentState (h { powerOn with currentState := DARK })
    by_cases h1 : r < DARKNESS_THRESHOLD_L <;>
      simp [ADC10_ISR, h1, h2, darkSwitch, lightSwitch, powerOn] at this
  · have h1 : ¬ r < DARKNESS_THRESHOLD_L := by rw [hL]; omega
    have h2 : r > DARKNESS_THRESHOLD_H := by rw [hH]; exact h
    simp [ADC10_ISR, h1, h2]
  · have hd := congrArg State.currentState (h powerOn)
    have hl := congrArg State.currentState (h { powerOn with currentState := DARK })
    by_cases h1 : r < DARKNESS_THRESHOLD_L
    · simp [ADC10_ISR, h1, darkSwitch, powerOn] at hd
    · by_cases h2 : r > DARKNESS_THRESHOLD_H
      · simp [ADC10_ISR, h1, h2, lightSwitch, powerOn] at hl
      · rw [hL] at h1; rw [hH] at h2; omega
  · have h1 : ¬ r < DARKNESS_THRESHOLD_L := by rw [hL]; omega
    have h2 : ¬ r > DARKNESS_THRESHOLD_H := by rw [hH]; omega
    simp [ADC10_ISR, h1, h2]

/-- A witness of claim C1: sample `0x50` is a Dark verdict and takes the power-on
state, which is LIGHT, to SEQUENCE with elapsed 0. -/
theorem C1_adc_verdict_columns_witness :
    ADC10_ISR powerOn 0x50 =
      { powerOn with time_since_activation := 0, currentState := SEQUENCE } :=
  ((C1_adc_verdict_columns powerOn 0x50).1 (by decide)).1 rfl

/-! ## Tick handler: the requested duty -/

/-- Claim C3: on a tick in SEQUENCE with elapsed `e ≤ 450` the duty passed to
`_setDutyOnP16` is the integer `100 - ⌊100 e / 450⌋`; the product `100 e` stays
below `2^16`, the duty lies in `[0, 100]` and is 50 at `e = 225`.  In LIGHT and
DARK the duty passed is 0, so the requested duty is in `[0, 100]` for every
state and elapsed value.  The last conjunct ties `requestedDuty` to the handler:
the tick is one call of `_setDutyOnP16` with that argument, followed by the
overflow transition and the increment. -/
theorem C3_requested_duty :
    (∀ e : Nat, e ≤ 450 →
      100 * e < 65536 ∧
      requestedDuty SEQUENCE e = 100 - ((100 * e / 450 : Nat) : Int) ∧
      0 ≤ requestedDuty SEQUENCE e ∧ requestedDuty SEQUENCE e ≤ 100) ∧
    requestedDuty SEQUENCE 225 = 50 ∧
    (∀ e : Nat, requestedDuty LIGHT e = 0 ∧ requestedDuty DARK e = 0) ∧
    (∀ (c : AmbientState) (e : Nat), 0 ≤ requestedDuty c e ∧ requestedDuty c e ≤ 100) ∧
    (∀ (s : State) (now : Nat),
      tick s now =
        (let s1 := { s with ADC10CTL0 := (s.ADC10CTL0 ||| (ENC + ADC10SC)) % 65536 }
         let s2 := _setDutyOnP16 s1 now (requestedDuty s.currentState s.time_since_activation)
         let s3 := if s.currentState = SEQUENCE ∧ ¬ s.time_since_activation ≤ LIGHTUP_TIME_INT
           then { s2 with time_since_activation := 0xFFFF, currentState := DARK } else s2
         if s3.time_since_activation ≠ 0xFFFF then
           { s3 with time_since_activation := (s3.time_since_activation + 1) % 65536 }
         else s3)) := by
  refine ⟨fun e h => ?_, ?_, fun e => ⟨rfl, rfl⟩, fun c e => ?_, tick_eq⟩
  · rw [requestedDuty_sequence e h]
    omega
  · rw [requestedDuty_sequence 225 (by omega)]
    norm_num
  · cases c
    · simp [requestedDuty]
    · simp [requestedDuty]
    · by_cases h : e ≤ 450
      · rw [requestedDuty_sequence e h]
        omega
      · rw [requestedDuty_overflow e (by omega)]
        omega

/-- A witness of claim C3 at elapsed 225, half of the fade. -/
theorem C3_requested_duty_witness :
    100 * 225 < 65536 ∧
    requestedDuty SEQUENCE 225 = 100 - ((100 * 225 / 450 : Nat) : Int) ∧
    0 ≤ requestedDuty SEQUENCE 225 ∧ requestedDuty SEQUENCE 225 ≤ 100 :=
  C3_requested_duty.1 225 (by decide)

/-- Claim C4: with the limit `L = 450` the duty requested in SEQUENCE does not
increase with the elapsed counter on `[0, L]`; it is 100 at elapsed 0 and 0 at
elapsed `L`. -/
theorem C4_fade_monotone :
    LIGHTUP_TIME_INT = 450 ∧
    (∀ e1 e2 : Nat, e1 ≤ e2 → e2 ≤ LIGHTUP_TIME_INT →
      requestedDuty SEQUENCE e2 ≤ requestedDuty SEQUENCE e1) ∧
    requestedDuty SEQUENCE 0 = 100 ∧
    requestedDuty SEQUENCE LIGHTUP_TIME_INT = 0 := by
  have hL : LIGHTUP_TIME_INT = 450 := rfl
  refine ⟨hL, fun e1 e2 h12 h2 => ?_, ?_, ?_⟩
  · rw [hL] at h2
    rw [requestedDuty_sequence e2 h2, requestedDuty_sequence e1 (by omega)]
    omega
  · rw [requestedDuty_sequence 0 (by omega)]
    norm_num
  · rw [hL, requestedDuty_sequence 450 (by omega)]
    norm_num

/-- A witness of claim C4: the duty at elapsed 300 is at most the duty at
elapsed 100. -/
theorem C4_fade_monotone_witness :
    requestedDuty SEQUENCE 300 ≤ requestedDuty SEQUENCE 100 :=
  C4_fade_monotone.2.1 100 300 (by decide) (by decide)

/-- Claim C5: the tick-overflow column.  A tick in SEQUENCE with elapsed above
450 requests duty 0, ends in DARK with elapsed `0xFFFF`, and is exactly
`_setDutyOnP16(0)` followed by these two assignments.  A tick in LIGHT or DARK
requests duty 0 and keeps the ambient state, whatever the elapsed value. -/
theorem C5_tick_overflow_column (s : State) (now : Nat) :
    (s.currentState = SEQUENCE → 450 < s.time_since_activation →
      requestedDuty s.currentState s.time_since_activation = 0 ∧
      tick s now =
        { _setDutyOnP16
            { s with ADC10CTL0 := (s.ADC10CTL0 ||| (ENC + ADC10SC)) % 65536 } now 0 with
          time_since_activation := 0xFFFF, currentState := DARK } ∧
      (tick s now).currentState = DARK ∧
      (tick s now).time_since_activation = 0xFFFF) ∧
    (s.currentState = LIGHT →
      requestedDuty s.currentState s.time_since_activation = 0 ∧
      (tick s now).currentState = LIGHT) ∧
    (s.currentState = DARK →
      requestedDuty s.currentState s.time_since_activation = 0 ∧
      (tick s now).currentState = DARK) := by
  refine ⟨fun hc he => ?_, fun hc => ?_, fun hc => ?_⟩
  · have h1 : ¬ s.time_since_activation ≤ LIGHTUP_TIME_INT := by
      simp only [LIGHTUP_TIME_INT, LIGHTUP_TIME_SEC]; omega
    have hr : requestedDuty s.currentState s.time_since_activation = 0 := by
      rw [hc]; exact requestedDuty_overflow _ he
    have ht : tick s now =
        { _setDutyOnP16
            { s with ADC10CTL0 := (s.ADC10CTL0 ||| (ENC + ADC10SC)) % 65536 } now 0 with
          time_since_activation := 0xFFFF, currentState := DARK } := by
      rw [tick_eq, hr]
      simp [hc, h1]
    refine ⟨hr, ht, ?_, ?_⟩ <;> rw [ht]
  · refine ⟨by rw [hc]; rfl, ?_⟩
    rw [tick_eq]
    simp only [hc]
    split_ifs <;> simp_all [setDuty_currentState]
  · refine ⟨by rw [hc]; rfl, ?_⟩
    rw [tick_eq]
    simp only [hc]
    split_ifs <;> simp_all [setDuty_currentState]

/-- A witness of claim C5: from SEQUENCE with elapsed 451 the tick ends in DARK
with the sentinel. -/
theorem C5_tick_overflow_column_witness :
    (tick (fading 451) 0).currentState = DARK ∧
    (tick (fading 451) 0).time_since_activation = 0xFFFF :=
  ((C5_tick_overflow_column (fading 451) 0).1 rfl (by decide)).2.2

/-- Counterexample to claim C6 as stated: the tick taken in SEQUENCE with elapsed
exactly 450 does not change the state to DARK and does not reset elapsed; the
state stays SEQUENCE and elapsed becomes 451. -/
theorem C6_counterexample :
    (fading 450).currentState = SEQUENCE ∧
    (fading 450).time_since_activation = LIGHTUP_TIME_INT ∧
    (tick (fading 450) 0).currentState = SEQUENCE ∧
    (tick (fading 450) 0).time_since_activation = 451 ∧
    ¬ ((tick (fading 450) 0).currentState = DARK ∧
       (tick (fading 450) 0).time_since_activation = 0xFFFF) := by
  decide

/-- Claim C6, amended: a tick taken in SEQUENCE with elapsed exactly `L = 450`
computes duty 0, keeps the state SEQUENCE and increments elapsed to 451; the
tick after it requests duty 0 again, changes the state to DARK and resets
elapsed to `0xFFFF`; every later tick leaves elapsed at the sentinel. -/
theorem C6_limit_then_overflow (s : State) (now now2 : Nat) (nows : List Nat)
    (hc : s.currentState = SEQUENCE) (he : s.time_since_activation = LIGHTUP_TIME_INT) :
    LIGHTUP_TIME_INT = 450 ∧
    requestedDuty s.currentState s.time_since_activation = 0 ∧
    (tick s now).currentState = SEQUENCE ∧
    (tick s now).time_since_activation = 451 ∧
    requestedDuty (tick s now).currentState (tick s now).time_since_activation = 0 ∧
    (tick (tick s now) now2).currentState = DARK ∧
    (tick (tick s now) now2).time_since_activation = 0xFFFF ∧
    (ticks (tick (tick s now) now2) nows).time_since_activation = 0xFFFF := by
  have hL : LIGHTUP_TIME_INT = 450 := rfl
  have hr : requestedDuty s.currentState s.time_since_activation = 0 := by
    rw [hc, he, hL, requestedDuty_sequence 450 (by omega)]
    norm_num
  have h1c : (tick s now).currentState = SEQUENCE := by
    rw [tick_eq]
    simp [hc, he, setDuty_currentState, setDuty_time_since_activation, hL]
  have h1e : (tick s now).time_since_activation = 451 := by
    rw [tick_eq]
    simp [hc, he, setDuty_currentState, setDuty_time_since_activation, hL]
  have h2 := (tick_overflow (tick s now) now2 h1c (by omega))
  exact ⟨hL, hr, h1c, h1e, by rw [h1c, h1e]; exact requestedDuty_overflow _ (by omega),
    h2.1, h2.2, ticks_sentinel nows _ h2.2⟩

/-- A witness of the amended claim C6, from the fade state with elapsed 450 and
three later ticks. -/
theorem C6_limit_then_overflow_witness :
    (tick (fading 450) 0).time_since_activation = 451 ∧
    (tick (tick (fading 450) 0) 7).currentState = DARK ∧
    (ticks (tick (tick (fading 450) 0) 7) [1, 2, 3]).time_since_activation = 0xFFFF :=
  have h := C6_limit_then_overflow (fading 450) 0 7 [1, 2, 3] rfl rfl
  ⟨h.2.2.2.1, h.2.2.2.2.2.1, h.2.2.2.2.2.2.2⟩

/-! ## The PWM engine -/

/-- Claim C7: for every percent `2 ≤ p ≤ 99`, every prior state and every timer
value, `_setDutyOnP16(p)` ends with the PWM running, `TACCR0 = (now + 10 p) mod
2^16` and `TACCR1 = (now + 1000) mod 2^16`, where `10 = 1000 / 100` exactly.
From PWM_OFF it also selects the fast clock (one clock switch) and drives the
LEDs high; from PWM_ON it leaves clock selection and LED output as they were
and switches no clock. -/
theorem C7_setDuty_toggling (s : State) (now : Nat) (p : Int) (h2 : 2 ≤ p) (h99 : p ≤ 99) :
    (_setDutyOnP16 s now p).pwmState = PWM_ON ∧
    (((_setDutyOnP16 s now p).TACCR0 : Nat) : Int) = ((now : Int) + p * 10) % 65536 ∧
    (_setDutyOnP16 s now p).TACCR1 = (now + 1000) % 65536 ∧
    DUTY_CYCLE_PRESC = 10 ∧ DUTY_CYCLE_PRESC * 100 = DUTY_CYCLE_TICKS ∧
    (s.pwmState = PWM_OFF →
      fastClock (_setDutyOnP16 s now p) ∧ ledsHigh (_setDutyOnP16 s now p) ∧
      (_setDutyOnP16 s now p).mclkSwitches = s.mclkSwitches + 1) ∧
    (s.pwmState = PWM_ON →
      (_setDutyOnP16 s now p).BCSCTL2 = s.BCSCTL2 ∧
      (_setDutyOnP16 s now p).P1OUT = s.P1OUT ∧
      (_setDutyOnP16 s now p).mclkSwitches = s.mclkSwitches) := by
  have hp := clampPercent_mid p h2 h99
  have h0 : clampPercent p ≠ 0 := by rw [hp]; omega
  have h100 : clampPercent p ≠ 100 := by rw [hp]; omega
  cases hs : s.pwmState
  · rw [setDuty_mid_off s now p h0 h100 hs, hp]
    refine ⟨rfl, toUInt16_add_wrap now p, toUInt16_add_ticks now, rfl, rfl,
      fun _ => ⟨?_, ?_, rfl⟩, fun h => absurd h (by decide)⟩
    · exact clear_bits_read s.BCSCTL2 SELM_3
    · exact set_bits_read s.P1OUT LEDS_MASK (by decide)
  · rw [setDuty_mid_on s now p h0 h100 hs, hp]
    exact ⟨hs, toUInt16_add_wrap now p, toUInt16_add_ticks now, rfl, rfl,
      fun h => absurd h (by decide), fun _ => ⟨rfl, rfl, rfl⟩⟩

/-- A witness of claim C7: percent 50 at timer value 65000 from the power-on
state; the falling edge wraps to 65500 and the rising edge to 464. -/
theorem C7_setDuty_toggling_witness :
    (_setDutyOnP16 powerOn 65000 50).pwmState = PWM_ON ∧
    (((_setDutyOnP16 powerOn 65000 50).TACCR0 : Nat) : Int) = ((65000 : Nat) + 50 * 10) % 65536 ∧
    (_setDutyOnP16 powerOn 65000 50).TACCR1 = (65000 + 1000) % 65536 :=
  have h := C7_setDuty_toggling powerOn 65000 50 (by decide) (by decide)
  ⟨h.1, h.2.1, h.2.2.1⟩

/-- Claim C8: from every state with the PWM running, `_setDutyOnP16(0)` ends
with PWM_OFF, the LEDs low and the slow clock selected, leaves both compare
registers as they were and executes one clock switch; a further
`_setDutyOnP16(0)` changes nothing, so the clock is switched exactly once.
`_setDutyOnP16(100)` does the same with the LEDs high: its result differs from
that of `_setDutyOnP16(0)` in `P1OUT` only. -/
theorem C8_setDuty_stop (s : State) (now now2 : Nat) (h : s.pwmState = PWM_ON) :
    ((_setDutyOnP16 s now 0).pwmState = PWM_OFF ∧
      ledsLow (_setDutyOnP16 s now 0) ∧
      slowClock (_setDutyOnP16 s now 0) ∧
      (_setDutyOnP16 s now 0).TACCR0 = s.TACCR0 ∧
      (_setDutyOnP16 s now 0).TACCR1 = s.TACCR1 ∧
      (_setDutyOnP16 s now 0).mclkSwitches = s.mclkSwitches + 1 ∧
      _setDutyOnP16 (_setDutyOnP16 s now 0) now2 0 = _setDutyOnP16 s now 0 ∧
      (_setDutyOnP16 (_setDutyOnP16 s now 0) now2 0).mclkSwitches = s.mclkSwitches + 1) ∧
    ((_setDutyOnP16 s now 100).pwmState = PWM_OFF ∧
      ledsHigh (_setDutyOnP16 s now 100) ∧
      slowClock (_setDutyOnP16 s now 100) ∧
      (_setDutyOnP16 s now 100).TACCR0 = s.TACCR0 ∧
      (_setDutyOnP16 s now 100).TACCR1 = s.TACCR1 ∧
      (_setDutyOnP16 s now 100).mclkSwitches = s.mclkSwitches + 1 ∧
      _setDutyOnP16 (_setDutyOnP16 s now 100) now2 100 = _setDutyOnP16 s now 100 ∧
      (_setDutyOnP16 (_setDutyOnP16 s now 100) now2 100).mclkSwitches = s.mclkSwitches + 1) ∧
    { _setDutyOnP16 s now 100 with P1OUT := (_setDutyOnP16 s now 0).P1OUT }
      = _setDutyOnP16 s now 0 := by
  have e0 := setDuty_zero_on s now h
  have e100 := setDuty_hundred_on s now h
  have o0 : (_setDutyOnP16 s now 0).pwmState = PWM_OFF := by rw [e0]; rfl
  have o100 : (_setDutyOnP16 s now 100).pwmState = PWM_OFF := by rw [e100]; rfl
  have r0 : _setDutyOnP16 (_setDutyOnP16 s now 0) now2 0 = _setDutyOnP16 s now 0 := by
    rw [setDuty_zero_off _ now2 o0, e0, DIM_LEDS_idem]
  have r100 : _setDutyOnP16 (_setDutyOnP16 s now 100) now2 100 = _setDutyOnP16 s now 100 := by
    rw [setDuty_hundred_off _ now2 o100, e100, LIGHT_LEDS_idem]
  refine ⟨⟨o0, ?_, ?_, ?_, ?_, ?_, r0, ?_⟩, ⟨o100, ?_, ?_, ?_, ?_, ?_, r100, ?_⟩, ?_⟩
  · rw [e0]; exact ledsLow_DIM_LEDS _
  · rw [e0]; exact set_bits_read s.BCSCTL2 SELM_3 (by decide)
  · rw [e0]; rfl
  · rw [e0]; rfl
  · rw [e0]; rfl
  · rw [r0, e0]; rfl
  · rw [e100]; exact ledsHigh_LIGHT_LEDS _
  · rw [e100]; exact set_bits_read s.BCSCTL2 SELM_3 (by decide)
  · rw [e100]; rfl
  · rw [e100]; rfl
  · rw [e100]; rfl
  · rw [r100, e100]; rfl
  · rw [e0, e100]; rfl

/-- A witness of claim C8 on a state with the PWM running and one clock switch
behind it. -/
theorem C8_setDuty_stop_witness :
    (_setDutyOnP16 pwmRunning 7 0).pwmState = PWM_OFF ∧
    ledsLow (_setDutyOnP16 pwmRunning 7 0) ∧
    slowClock (_setDutyOnP16 pwmRunning 7 0) ∧
    (_setDutyOnP16 (_setDutyOnP16 pwmRunning 7 0) 9 0).mclkSwitches = 2 :=
  have h := C8_setDuty_stop pwmRunning 7 9 rfl
  ⟨h.1.1, h.1.2.1, h.1.2.2.1, h.1.2.2.2.2.2.2.2⟩

/-- Claim C9: for every state, every percent and every fixed timer value,
applying `_setDutyOnP16(p)` twice gives exactly the state of applying it once;
in particular the second application switches no clock: the count of clock
switches and `BCSCTL2` are those left by the first. -/
theorem C9_setDuty_idempotent (s : State) (now : Nat) (p : Int) :
    _setDutyOnP16 (_setDutyOnP16 s now p) now p = _setDutyOnP16 s now p ∧
    (_setDutyOnP16 (_setDutyOnP16 s now p) now p).mclkSwitches
      = (_setDutyOnP16 s now p).mclkSwitches ∧
    (_setDutyOnP16 (_setDutyOnP16 s now p) now p).BCSCTL2
      = (_setDutyOnP16 s now p).BCSCTL2 := by
  have key : _setDutyOnP16 (_setDutyOnP16 s now p) now p = _setDutyOnP16 s now p := by
    by_cases h0 : clampPercent p = 0
    · cases hp : s.pwmState <;>
        simp [_setDutyOnP16, h0, hp, DIM_LEDS, SLOW_DOWN_MCLK, clear_bits_twice]
    · by_cases h100 : clampPercent p = 100
      · cases hp : s.pwmState <;>
          simp [_setDutyOnP16, h100, hp, LIGHT_LEDS, SLOW_DOWN_MCLK, set_bits_twice]
      · cases hp : s.pwmState <;>
          simp [_setDutyOnP16, h0, h100, hp, LIGHT_LEDS, SPEED_UP_MCLK]
  exact ⟨key, by rw [key], by rw [key]⟩

/-- Claim C10: while the PWM is running, `Timer_A0` drives the LEDs low and
replaces `CCR0` by `(CCR0 + 1000) mod 2^16`, and the `TAIV_TACCR1` case of
`TIMERA1_ISR` drives the LEDs high and replaces `CCR1` by `(CCR1 + 1000) mod
2^16`; each writes `P1OUT` and its own compare register only, and within
`P1OUT` no pin outside `LEDS_MASK`.  Hence after `k` falling-edge events that
follow a `_setDutyOnP16(p)` call at timer value `now` which left the PWM
running, `CCR0 = (now + 10 p + 1000 k) mod 2^16`. -/
theorem C10_edge_handlers :
    (∀ s : State, s.pwmState = PWM_ON →
      Timer_A0 s = { DIM_LEDS s with TACCR0 := (s.TACCR0 + 1000) % 65536 } ∧
      ledsLow (Timer_A0 s) ∧
      (∀ i : Nat, i < 8 → LEDS_MASK.testBit i = false →
        (Timer_A0 s).P1OUT.testBit i = s.P1OUT.testBit i)) ∧
    (∀ (s : State) (now : Nat), s.pwmState = PWM_ON →
      TIMERA1_ISR s TAIV_TACCR1 now
        = { LIGHT_LEDS s with TACCR1 := (s.TACCR1 + 1000) % 65536 } ∧
      ledsHigh (TIMERA1_ISR s TAIV_TACCR1 now) ∧
      (∀ i : Nat, i < 8 → LEDS_MASK.testBit i = false →
        (TIMERA1_ISR s TAIV_TACCR1 now).P1OUT.testBit i = s.P1OUT.testBit i)) ∧
    (∀ (s : State) (now : Nat) (p : Int) (k : Nat),
      (_setDutyOnP16 s now p).pwmState = PWM_ON →
      (((Timer_A0^[k] (_setDutyOnP16 s now p)).TACCR0 : Nat) : Int)
        = ((now : Int) + p * 10 + k * 1000) % 65536) := by
  refine ⟨fun s h => ⟨Timer_A0_on s h, ?_, fun i hi hm => ?_⟩,
    fun s now h => ?_, fun s now p k h => ?_⟩
  · rw [Timer_A0_on s h]; exact clear_bits_read s.P1OUT LEDS_MASK
  · rw [Timer_A0_on s h]
    exact clear_bits_other s.P1OUT LEDS_MASK i hi hm
  · have e : TIMERA1_ISR s TAIV_TACCR1 now
        = { LIGHT_LEDS s with TACCR1 := (s.TACCR1 + 1000) % 65536 } := by
      simp [TIMERA1_ISR, TAIV_TACCR1, TAIV_TAIFG, h, LIGHT_LEDS, DUTY_CYCLE_TICKS]
    refine ⟨e, ?_, fun i hi hm => ?_⟩
    · rw [e]; exact set_bits_read s.P1OUT LEDS_MASK (by decide)
    · rw [e]
      exact set_bits_other s.P1OUT LEDS_MASK i hi hm
  · have hc : (((_setDutyOnP16 s now p).TACCR0 : Nat) : Int)
        = ((now : Int) + p * 10) % 65536 % 65536 := by
      rw [setDuty_on_TACCR0 s now p h]; omega
    have := (Timer_A0_iterate k _ (((now : Int) + p * 10) % 65536) h hc).2
    rw [this]
    omega

/-- A witness of claim C10: on the running PWM one falling edge moves `CCR0`
from 500 to 1500, one rising edge moves `CCR1` from 1000 to 2000, and after
percent 25 at timer value 65000 three falling edges leave `CCR0` at
`(65000 + 250 + 3000) mod 2^16`. -/
theorem C10_edge_handlers_witness :
    (Timer_A0 pwmRunning).TACCR0 = 1500 ∧
    (TIMERA1_ISR pwmRunning TAIV_TACCR1 0).TACCR1 = 2000 ∧
    (((Timer_A0^[3] (_setDutyOnP16 powerOn 65000 25)).TACCR0 : Nat) : Int)
      = (((65000 : Nat) : Int) + 25 * 10 + (3 : Nat) * 1000) % 65536 :=
  ⟨by rw [(C10_edge_handlers.1 pwmRunning rfl).1]; rfl,
   by rw [(C10_edge_handlers.2.1 pwmRunning 0 rfl).1]; rfl,
   C10_edge_handlers.2.2 powerOn 65000 25 3 (by decide)⟩

/-! ## Scenarios and frame properties -/

/-- Claim C11: from LIGHT, with any elapsed value and any PWM state, a Dark
verdict sets the state to SEQUENCE and elapsed to 0; the tick that follows
requests duty exactly 100, which leaves the LEDs high with the PWM stopped, the
state SEQUENCE and elapsed 1. -/
theorem C11_darkness_falls (s : State) (r now : Nat)
    (hc : s.currentState = LIGHT) (hr : r < 0x090) :
    (ADC10_ISR s r).currentState = SEQUENCE ∧
    (ADC10_ISR s r).time_since_activation = 0 ∧
    requestedDuty (ADC10_ISR s r).currentState (ADC10_ISR s r).time_since_activation = 100 ∧
    ledsHigh (tick (ADC10_ISR s r) now) ∧
    (tick (ADC10_ISR s r) now).pwmState = PWM_OFF ∧
    (tick (ADC10_ISR s r) now).currentState = SEQUENCE ∧
    (tick (ADC10_ISR s r) now).time_since_activation = 1 := by
  have h1 : r < DARKNESS_THRESHOLD_L := hr
  have ha : ADC10_ISR s r = { s with time_since_activation := 0, currentState := SEQUENCE } := by
    simp [ADC10_ISR, h1, darkSwitch, hc]
  have hq : requestedDuty SEQUENCE 0 = 100 := by
    rw [requestedDuty_sequence 0 (by omega)]; norm_num
  have hcs : (ADC10_ISR s r).currentState = SEQUENCE := by rw [ha]
  have hts : (ADC10_ISR s r).time_since_activation = 0 := by rw [ha]
  obtain ⟨hp, ho, _⟩ := tick_hw (ADC10_ISR s r) now
  have hf := tick_fade (ADC10_ISR s r) now hcs (by omega)
  have hreq : requestedDuty (ADC10_ISR s r).currentState
      (ADC10_ISR s r).time_since_activation = 100 := by rw [hcs, hts, hq]
  rw [hreq] at hp ho
  refine ⟨hcs, hts, hreq, ?_, ?_, hf.1, by rw [hf.2, hts]⟩
  · have := setDuty_hundred_ledsHigh
      { ADC10_ISR s r with
        ADC10CTL0 := ((ADC10_ISR s r).ADC10CTL0 ||| (ENC + ADC10SC)) % 65536 } now
    unfold ledsHigh at this ⊢
    rw [ho]; exact this
  · rw [hp]; exact setDuty_hundred_pwmState _ now

/-- A witness of claim C11: sample `0x10` at power-on, then a tick. -/
theorem C11_darkness_falls_witness :
    (ADC10_ISR powerOn 0x10).currentState = SEQUENCE ∧
    ledsHigh (tick (ADC10_ISR powerOn 0x10) 5) ∧
    (tick (ADC10_ISR powerOn 0x10) 5).time_since_activation = 1 :=
  have h := C11_darkness_falls powerOn 0x10 5 rfl (by decide)
  ⟨h.1, h.2.2.2.1, h.2.2.2.2.2.2⟩

/-- Claim C12: for every state and every 16-bit elapsed value `e`, after the
tick elapsed is `0xFFFF` if `e` was `0xFFFF` or if the tick made the SEQUENCE to
DARK transition (state SEQUENCE with `e > 450`), and is `e + 1` in every other
case.  The sample-ready handler never counts: it leaves elapsed as it was or
assigns one of the constants 0 and `0xFFFF`. -/
theorem C12_elapsed_update (s : State) (now r : Nat)
    (hw : s.time_since_activation < 65536) :
    (s.time_since_activation = 0xFFFF → (tick s now).time_since_activation = 0xFFFF) ∧
    (s.currentState = SEQUENCE → 450 < s.time_since_activation →
      (tick s now).currentState = DARK ∧ (tick s now).time_since_activation = 0xFFFF) ∧
    (s.time_since_activation ≠ 0xFFFF →
      ¬ (s.currentState = SEQUENCE ∧ 450 < s.time_since_activation) →
      (tick s now).time_since_activation = s.time_since_activation + 1) ∧
    ((ADC10_ISR s r).time_since_activation = s.time_since_activation ∨
      (ADC10_ISR s r).time_since_activation = 0 ∨
      (ADC10_ISR s r).time_since_activation = 0xFFFF) := by
  refine ⟨tick_sentinel s now, tick_overflow s now, fun hne hno => ?_, ?_⟩
  · have h3 : (s.time_since_activation + 1) % 65536 = s.time_since_activation + 1 := by
      omega
    have hg : ¬ (s.currentState = SEQUENCE ∧ ¬ s.time_since_activation ≤ LIGHTUP_TIME_INT) := by
      intro h
      exact hno ⟨h.1, by
        have := h.2
        simp only [LIGHTUP_TIME_INT, LIGHTUP_TIME_SEC] at this
        omega⟩
    rw [tick_eq]
    simp only [hg, if_false, setDuty_time_since_activation]
    simp [hne, h3]
  · unfold ADC10_ISR darkSwitch lightSwitch
    split_ifs <;> cases s.currentState <;> simp

/-- A witness of claim C12: in SEQUENCE with elapsed 7 the tick counts to 8. -/
theorem C12_elapsed_update_witness :
    (tick (fading 7) 0).time_since_activation = 7 + 1 :=
  (C12_elapsed_update (fading 7) 0 0 (by decide)).2.2.1 (by decide) (by decide)

/-- Claim C13: an edge event that fires while the PWM is stopped changes
nothing: `Timer_A0` and the `TAIV_TACCR1` case of `TIMERA1_ISR` both return the
state they were given. -/
theorem C13_edge_noop_when_off (s : State) (now : Nat) (h : s.pwmState = PWM_OFF) :
    Timer_A0 s = s ∧ TIMERA1_ISR s TAIV_TACCR1 now = s := by
  refine ⟨?_, ?_⟩
  · simp [Timer_A0, h]
  · simp [TIMERA1_ISR, TAIV_TACCR1, TAIV_TAIFG, h]

/-- A witness of claim C13 at power-on, where the PWM is stopped. -/
theorem C13_edge_noop_when_off_witness :
    Timer_A0 powerOn = powerOn ∧ TIMERA1_ISR powerOn TAIV_TACCR1 9 = powerOn :=
  C13_edge_noop_when_off powerOn 9 rfl

/-! ## Invariants over runs of interrupts -/

/-- Claim C14: from an initial state that is LIGHT with elapsed `0xFFFF`, after
any finite run of sample-ready events (with any raw samples), ticks and edge
events, elapsed is `0xFFFF` whenever the state is LIGHT or DARK and is at most
451 whenever the state is SEQUENCE; so the counter never wraps and is never the
sentinel while counting. -/
theorem C14_elapsed_invariant (s0 : State) (es : List Event)
    (hc : s0.currentState = LIGHT) (he : s0.time_since_activation = 0xFFFF) :
    (((run s0 es).currentState = LIGHT ∨ (run s0 es).currentState = DARK) →
      (run s0 es).time_since_activation = 0xFFFF) ∧
    ((run s0 es).currentState = SEQUENCE →
      (run s0 es).time_since_activation ≤ 451 ∧
      (run s0 es).time_since_activation ≠ 0xFFFF) := by
  have h0 : elapsedCoupled s0 :=
    ⟨fun _ => he, fun h => by rw [hc] at h; exact absurd h (by decide)⟩
  obtain ⟨h1, h2⟩ := run_elapsedCoupled es s0 h0
  exact ⟨h1, fun h => ⟨h2 h, by have := h2 h; omega⟩⟩

/-- A witness of claim C14: after `main`, a Dark sample, a tick and two edge
events the state is SEQUENCE and elapsed is within the bound. -/
theorem C14_elapsed_invariant_witness :
    (run (main powerOn)
      [Event.adc 0x10, Event.timerA1 TAIV_TAIFG 0, Event.timerA0,
       Event.timerA1 TAIV_TACCR1 3]).currentState = SEQUENCE ∧
    (run (main powerOn)
      [Event.adc 0x10, Event.timerA1 TAIV_TAIFG 0, Event.timerA0,
       Event.timerA1 TAIV_TACCR1 3]).time_since_activation ≤ 451 :=
  ⟨by decide,
   ((C14_elapsed_invariant (main powerOn)
      [Event.adc 0x10, Event.timerA1 TAIV_TAIFG 0, Event.timerA0,
       Event.timerA1 TAIV_TACCR1 3] rfl rfl).2 (by decide)).1⟩

/-! ## The minimum-duty clamp -/

/-- Claim C15: for every percent `p` whose product `p * 10` is below 20 and
fits a 16-bit `int` (every `p ≤ 1` down to `-3276`), `_setDutyOnP16(p)` gives
exactly the state of `_setDutyOnP16(0)`: PWM stopped, LEDs low, compare
registers not written. -/
theorem C15_minimum_duty_clamp (s : State) (now : Nat) (p : Int)
    (h : p * 10 < 20) (hr : -32768 ≤ p * 10) :
    p ≤ 1 ∧
    _setDutyOnP16 s now p = _setDutyOnP16 s now 0 ∧
    (_setDutyOnP16 s now p).pwmState = PWM_OFF ∧
    ledsLow (_setDutyOnP16 s now p) ∧
    (_setDutyOnP16 s now p).TACCR0 = s.TACCR0 ∧
    (_setDutyOnP16 s now p).TACCR1 = s.TACCR1 := by
  have e : _setDutyOnP16 s now p = _setDutyOnP16 s now 0 :=
    setDuty_clamped s now p 0 ((clampPercent_small p h hr).trans clampPercent_zero.symm)
  rw [e]
  exact ⟨by omega, rfl, setDuty_zero_pwmState s now, setDuty_zero_ledsLow s now,
    (setDuty_zero_compare s now).1, (setDuty_zero_compare s now).2⟩

/-- A witness of claim C15: percent 1 on the running PWM stops it, as percent 0
does. -/
theorem C15_minimum_duty_clamp_witness :
    _setDutyOnP16 pwmRunning 7 1 = _setDutyOnP16 pwmRunning 7 0 ∧
    (_setDutyOnP16 pwmRunning 7 1).pwmState = PWM_OFF :=
  have h := C15_minimum_duty_clamp pwmRunning 7 1 (by decide) (by decide)
  ⟨h.2.1, h.2.2.1⟩

/-- Counterexample to claim C16 as stated: percent 99 is in `[0, 100]` and
leaves the PWM running, yet the scheduled rising edge follows the scheduled
falling edge after 10 timer counts only. -/
theorem C16_counterexample :
    (0 : Int) ≤ 99 ∧ (99 : Int) ≤ 100 ∧
    (_setDutyOnP16 powerOn 0 99).pwmState = PWM_ON ∧
    (_setDutyOnP16 powerOn 0 99).TACCR0 = 990 ∧
    (_setDutyOnP16 powerOn 0 99).TACCR1 = 1000 ∧
    forwardGap (_setDutyOnP16 powerOn 0 99).TACCR0 (_setDutyOnP16 powerOn 0 99).TACCR1 = 10 ∧
    ¬ (20 ≤ forwardGap (_setDutyOnP16 powerOn 0 99).TACCR0
              (_setDutyOnP16 powerOn 0 99).TACCR1) := by
  decide

/-- Claim C16, amended: for every percent `p` in `[0, 100]` for which
`_setDutyOnP16(p)` leaves the PWM running (then `2 ≤ p ≤ 99`), the scheduled
falling edge is `10 p ≥ 20` timer counts after the call instant and the
scheduled rising edge 1000 counts after it; for `p ≤ 98` the rising edge also
follows the falling edge after at least 20 counts.  The clamp bounds the lit
period only. -/
theorem C16_edge_gaps (s : State) (now : Nat) (p : Int) (h0 : 0 ≤ p) (h100 : p ≤ 100)
    (hon : (_setDutyOnP16 s now p).pwmState = PWM_ON) :
    2 ≤ p ∧ p ≤ 99 ∧
    forwardGap now (_setDutyOnP16 s now p).TACCR0 = p * 10 ∧
    20 ≤ forwardGap now (_setDutyOnP16 s now p).TACCR0 ∧
    forwardGap now (_setDutyOnP16 s now p).TACCR1 = 1000 ∧
    (p ≤ 98 →
      20 ≤ forwardGap (_setDutyOnP16 s now p).TACCR0 (_setDutyOnP16 s now p).TACCR1) := by
  obtain ⟨b0, b100⟩ := setDuty_on_branch s now p hon
  have hp := clampPercent_of_ne_zero p b0
  have h2 : 2 ≤ p := by
    by_contra hlt
    exact b0 (clampPercent_small p (by omega) (by omega))
  have h99 : p ≤ 99 := by
    rw [hp] at b100
    omega
  have e0 := setDuty_on_TACCR0 s now p hon
  have e1 := setDuty_on_TACCR1 s now p hon
  have g0 : forwardGap now (_setDutyOnP16 s now p).TACCR0 = p * 10 := by
    unfold forwardGap; rw [e0]; omega
  have g1 : forwardGap now (_setDutyOnP16 s now p).TACCR1 = 1000 := by
    unfold forwardGap; rw [e1]; omega
  have g2 : forwardGap (_setDutyOnP16 s now p).TACCR0 (_setDutyOnP16 s now p).TACCR1
      = 1000 - p * 10 := by
    unfold forwardGap; rw [e0, e1]; omega
  refine ⟨h2, h99, g0, by rw [g0]; omega, g1, fun h98 => ?_⟩
  rw [g2]; omega

/-- A witness of the amended claim C16: percent 50 at timer value 65000, where
the falling edge wraps around the 16-bit counter. -/
theorem C16_edge_gaps_witness :
    forwardGap 65000 (_setDutyOnP16 powerOn 65000 50).TACCR0 = 50 * 10 ∧
    forwardGap 65000 (_setDutyOnP16 powerOn 65000 50).TACCR1 = 1000 ∧
    20 ≤ forwardGap (_setDutyOnP16 powerOn 65000 50).TACCR0
      (_setDutyOnP16 powerOn 65000 50).TACCR1 :=
  have h := C16_edge_gaps powerOn 65000 50 (by decide) (by decide) (by decide)
  ⟨h.2.2.1, h.2.2.2.2.1, h.2.2.2.2.2 (by decide)⟩

/-! ## Cancelling the fade, clock coupling, fade length -/

/-- Claim C17: for every input the sample-ready handler leaves LED port, PWM
state, clock register, clock-switch count and both compare registers as they
were.  On a Light verdict in SEQUENCE it sets the state to LIGHT and elapsed to
`0xFFFF` and nothing else; the next tick is then exactly `_setDutyOnP16(0)`,
after which the LEDs are low, the PWM is stopped, and the state is still LIGHT
with elapsed `0xFFFF`. -/
theorem C17_light_cancels_fade (s : State) (r now : Nat) :
    ((ADC10_ISR s r).P1OUT = s.P1OUT ∧ (ADC10_ISR s r).pwmState = s.pwmState ∧
      (ADC10_ISR s r).BCSCTL2 = s.BCSCTL2 ∧ (ADC10_ISR s r).mclkSwitches = s.mclkSwitches ∧
      (ADC10_ISR s r).TACCR0 = s.TACCR0 ∧ (ADC10_ISR s r).TACCR1 = s.TACCR1) ∧
    (s.currentState = SEQUENCE → r > 0x0A0 →
      ADC10_ISR s r = { s with time_since_activation := 0xFFFF, currentState := LIGHT } ∧
      requestedDuty (ADC10_ISR s r).currentState (ADC10_ISR s r).time_since_activation = 0 ∧
      tick (ADC10_ISR s r) now =
        _setDutyOnP16
          { ADC10_ISR s r with
            ADC10CTL0 := ((ADC10_ISR s r).ADC10CTL0 ||| (ENC + ADC10SC)) % 65536 } now 0 ∧
      ledsLow (tick (ADC10_ISR s r) now) ∧
      (tick (ADC10_ISR s r) now).pwmState = PWM_OFF ∧
      (tick (ADC10_ISR s r) now).currentState = LIGHT ∧
      (tick (ADC10_ISR s r) now).time_since_activation = 0xFFFF) := by
  obtain ⟨f1, f2, f3, f4, f5, f6, _, _⟩ := ADC10_ISR_frame s r
  refine ⟨⟨f2, f1, f3, f6, f4, f5⟩, fun hc hr => ?_⟩
  have h1 : ¬ r < DARKNESS_THRESHOLD_L := by
    simp only [DARKNESS_THRESHOLD_L]; omega
  have h2 : r > DARKNESS_THRESHOLD_H := hr
  have ha : ADC10_ISR s r
      = { s with time_since_activation := 0xFFFF, currentState := LIGHT } := by
    simp [ADC10_ISR, h1, h2, lightSwitch, hc]
  have hcs : (ADC10_ISR s r).currentState = LIGHT := by rw [ha]
  have hts : (ADC10_ISR s r).time_since_activation = 0xFFFF := by rw [ha]
  have hreq : requestedDuty (ADC10_ISR s r).currentState
      (ADC10_ISR s r).time_since_activation = 0 := by rw [hcs]; rfl
  have ht : tick (ADC10_ISR s r) now =
      _setDutyOnP16
        { ADC10_ISR s r with
          ADC10CTL0 := ((ADC10_ISR s r).ADC10CTL0 ||| (ENC + ADC10SC)) % 65536 } now 0 := by
    rw [tick_eq, hreq]
    simp [hcs, hts, setDuty_time_since_activation]
  have hz := tick_zero (ADC10_ISR s r) now (by rw [hreq]; exact clampPercent_zero)
  have hst := tick_steady (ADC10_ISR s r) now (by rw [hcs]; decide)
  exact ⟨ha, hreq, ht, hz.2, hz.1, by rw [hst, hcs], tick_sentinel _ now hts⟩

/-- A witness of claim C17: sample `0x100` in the middle of a fade, then a tick. -/
theorem C17_light_cancels_fade_witness :
    (ADC10_ISR (fading 100) 0x100).currentState = LIGHT ∧
    ledsLow (tick (ADC10_ISR (fading 100) 0x100) 3) ∧
    (tick (ADC10_ISR (fading 100) 0x100) 3).pwmState = PWM_OFF :=
  have h := (C17_light_cancels_fade (fading 100) 0x100 3).2 rfl (by decide)
  ⟨by rw [h.1], h.2.2.2.1, h.2.2.2.2.1⟩

/-- Claim C18: `main` leaves the PWM stopped and the slow clock selected; after
any finite run of ticks, sample-ready events and edge events from there the
fast clock is selected if and only if the PWM is running, and the slow clock if
and only if it is stopped.  In particular a tick taken in LIGHT or DARK ends on
the slow clock with the PWM stopped. -/
theorem C18_clock_pwm_coupling (s0 : State) (es : List Event) (now : Nat)
    (h : s0.pwmState = PWM_OFF) :
    (main s0).pwmState = PWM_OFF ∧ slowClock (main s0) ∧
    (fastClock (run (main s0) es) ↔ (run (main s0) es).pwmState = PWM_ON) ∧
    (slowClock (run (main s0) es) ↔ (run (main s0) es).pwmState = PWM_OFF) ∧
    ((run (main s0) es).currentState ≠ SEQUENCE →
      slowClock (tick (run (main s0) es) now) ∧
      (tick (run (main s0) es) now).pwmState = PWM_OFF) := by
  have hm : slowClock (main s0) := set_bits_read s0.BCSCTL2 SELM_3 (by decide)
  have hi : clockCoupled (main s0) := Or.inr ⟨h, hm⟩
  have hrun := run_clockCoupled es (main s0) hi
  refine ⟨h, hm, ?_, ?_, fun hc => ?_⟩
  · rcases hrun with ⟨a, b⟩ | ⟨a, b⟩
    · exact ⟨fun _ => a, fun _ => b⟩
    · exact ⟨fun hf => absurd hf (slowClock_not_fast _ b),
        fun ho => by rw [a] at ho; exact absurd ho (by decide)⟩
  · rcases hrun with ⟨a, b⟩ | ⟨a, b⟩
    · exact ⟨fun hs => absurd b (slowClock_not_fast _ hs),
        fun ho => by rw [a] at ho; exact absurd ho (by decide)⟩
    · exact ⟨fun _ => a, fun _ => b⟩
  · have hreq : clampPercent (requestedDuty (run (main s0) es).currentState
        (run (main s0) es).time_since_activation) = 0 := by
      cases hcs : (run (main s0) es).currentState
      · exact clampPercent_zero
      · exact clampPercent_zero
      · exact absurd hcs hc
    have hz := tick_zero (run (main s0) es) now hreq
    rcases tick_clockCoupled (run (main s0) es) now hrun with ⟨a, _⟩ | ⟨_, b⟩
    · rw [hz.1] at a; exact absurd a (by decide)
    · exact ⟨b, hz.1⟩

/-- A witness of claim C18: after `main`, a Dark sample and six ticks the
requested duty is 99, the PWM is running and the fast clock is selected. -/
theorem C18_clock_pwm_coupling_witness :
    (run (main powerOn)
      [Event.adc 0x10, Event.timerA1 TAIV_TAIFG 0, Event.timerA1 TAIV_TAIFG 0,
       Event.timerA1 TAIV_TAIFG 0, Event.timerA1 TAIV_TAIFG 0, Event.timerA1 TAIV_TAIFG 0,
       Event.timerA1 TAIV_TAIFG 0]).pwmState = PWM_ON ∧
    fastClock (run (main powerOn)
      [Event.adc 0x10, Event.timerA1 TAIV_TAIFG 0, Event.timerA1 TAIV_TAIFG 0,
       Event.timerA1 TAIV_TAIFG 0, Event.timerA1 TAIV_TAIFG 0, Event.timerA1 TAIV_TAIFG 0,
       Event.timerA1 TAIV_TAIFG 0]) :=
  ⟨by decide,
   (C18_clock_pwm_coupling powerOn
      [Event.adc 0x10, Event.timerA1 TAIV_TAIFG 0, Event.timerA1 TAIV_TAIFG 0,
       Event.timerA1 TAIV_TAIFG 0, Event.timerA1 TAIV_TAIFG 0, Event.timerA1 TAIV_TAIFG 0,
       Event.timerA1 TAIV_TAIFG 0] 0 rfl).2.2.1.2 (by decide)⟩

/-- Claim C19: from SEQUENCE with elapsed 0 and ticks only, after `n ≤ 451`
ticks the state is SEQUENCE with elapsed `n`, and after exactly 452 ticks it is
DARK with elapsed `0xFFFF`; the duty requested on the `n`-th tick, for
`1 ≤ n ≤ 451`, is `100 - ⌊100 (n - 1) / 450⌋`; and after every tick taken at
elapsed 446 or later (the 447th tick onwards) the LEDs are low and the PWM is
stopped. -/
theorem C19_fade_length (s : State) (nows : List Nat)
    (hc : s.currentState = SEQUENCE) (he : s.time_since_activation = 0) :
    (nows.length ≤ 451 →
      (ticks s nows).currentState = SEQUENCE ∧
      (ticks s nows).time_since_activation = nows.length) ∧
    (nows.length = 452 →
      (ticks s nows).currentState = DARK ∧
      (ticks s nows).time_since_activation = 0xFFFF) ∧
    (∀ n : Nat, 1 ≤ n → n ≤ 451 → nows.length = n - 1 →
      requestedDuty (ticks s nows).currentState (ticks s nows).time_since_activation
        = 100 - ((100 * (n - 1) / 450 : Nat) : Int)) ∧
    (447 ≤ nows.length →
      ledsLow (ticks s nows) ∧ (ticks s nows).pwmState = PWM_OFF) := by
  have fade : ∀ l : List Nat, l.length ≤ 451 →
      (ticks s l).currentState = SEQUENCE ∧ (ticks s l).time_since_activation = l.length := by
    intro l hl
    obtain ⟨a, b⟩ := ticks_fade l s hc (by rw [he]; omega)
    exact ⟨a, by rw [b, he]; omega⟩
  refine ⟨fade nows, fun h452 => ?_, fun n h1 h451 hn => ?_, fun h447 => ?_⟩
  · have hsplit := List.take_append_drop 451 nows
    have htl : (nows.take 451).length = 451 := by
      rw [List.length_take]; omega
    have hdl : (nows.drop 451).length = 1 := by
      rw [List.length_drop]; omega
    obtain ⟨x, hx⟩ := List.length_eq_one.mp hdl
    obtain ⟨a, b⟩ := fade (nows.take 451) (by omega)
    rw [← hsplit, ticks_append, hx]
    exact tick_overflow (ticks s (nows.take 451)) x a (by rw [b, htl]; omega)
  · obtain ⟨a, b⟩ := fade nows (by omega)
    rw [a, b, hn]
    exact requestedDuty_sequence (n - 1) (by omega)
  · have hsplit := List.take_append_drop 446 nows
    have htl : (nows.take 446).length = 446 := by
      rw [List.length_take]; omega
    have hdl : nows.drop 446 ≠ [] := by
      intro hnil
      have := congrArg List.length hnil
      rw [List.length_drop] at this
      simp at this
      omega
    obtain ⟨a, b⟩ := fade (nows.take 446) (by omega)
    rw [← hsplit, ticks_append]
    have := ticks_late (nows.drop 446) (ticks s (nows.take 446))
      (Or.inl ⟨a, by rw [b, htl]⟩) hdl
    exact ⟨this.2, this.1⟩

/-- A witness of claim C19: three ticks into the fade the state is SEQUENCE with
elapsed 3, and the fourth tick requests duty `100 - ⌊300 / 450⌋`. -/
theorem C19_fade_length_witness :
    (ticks (fading 0) [0, 0, 0]).currentState = SEQUENCE ∧
    (ticks (fading 0) [0, 0, 0]).time_since_activation = 3 ∧
    requestedDuty (ticks (fading 0) [0, 0, 0]).currentState
        (ticks (fading 0) [0, 0, 0]).time_since_activation
      = 100 - ((100 * (4 - 1) / 450 : Nat) : Int) :=
  have h := C19_fade_length (fading 0) [0, 0, 0] rfl rfl
  ⟨(h.1 (by decide)).1, (h.1 (by decide)).2, h.2.2.1 4 (by decide) (by decide) rfl⟩

end DarkSwitch
